import Mathlib

set_option maxRecDepth 1000000

/-!
Verification development for the directory-diagnostics subsystem
(strategy dispatcher, per-tool output parsers, per-language external
process runners, LSP fallback aggregator, and LSP server registry).

The TypeScript sources are shallowly embedded: pure parsing functions
become Lean functions over `String`; filesystem probes (`existsSync`,
`statSync(...).isDirectory()`, `realpathSync`) and external process
invocations (`execFileSync`) become explicit oracle parameters; the
JavaScript regular expressions are embedded through a small token-list
matcher implementing the leftmost, greedy/lazy backtracking semantics
of the concrete patterns used by the code; `JSON.parse` is an oracle
`String → Option JsVal` over an explicit JSON value type, and the
JavaScript property accesses of the cargo parser (which throw a
TypeError on a `null` receiver) run in `Except Unit`.
-/

/-- Diagnostic severity, the string union `'error' | 'warning'` of the sources. -/
inductive Sev where
  | error
  | warning
deriving DecidableEq, BEq, Repr

/-- The set matched by the JavaScript regex class `\s` (WhiteSpace and
LineTerminator code points, as used by `String.prototype.trim` as well). -/
def isJsWs (c : Char) : Bool :=
  c == ' ' || c == '\t' || c == '\n' || c == '\r' ||
  c == '\x0b' || c == '\x0c' ||
  c == '\u00A0' || c == '\u1680' ||
  (0x2000 ≤ c.toNat && c.toNat ≤ 0x200A) ||
  c == '\u2028' || c == '\u2029' || c == '\u202F' || c == '\u205F' ||
  c == '\u3000' || c == '\uFEFF'

/-- JavaScript `String.prototype.trim`. -/
def jsTrim (s : String) : String :=
  ⟨((s.data.dropWhile isJsWs).reverse.dropWhile isJsWs).reverse⟩

/-- JavaScript `a || b` on strings: the empty string is falsy. -/
def jsOrStr (a b : String) : String :=
  if a = "" then b else a

/-- Single-character classes occurring in the four line-oriented regexes. -/
inductive CClass where
  | dot
  | digit
  | ws
  | upper
  | notRBracket
deriving DecidableEq, Repr

/-- Which characters a class matches (`.` never matches a newline; `\s` is `isJsWs`). -/
def CClass.matchesChar : CClass → Char → Bool
  | .dot, c => c != '\n'
  | .digit, c => c.isDigit
  | .ws, c => isJsWs c
  | .upper, c => 65 ≤ c.toNat && c.toNat ≤ 90
  | .notRBracket, c => c != ']'

/-- Tokens of the concrete regexes.  A capture group made of several pieces
(such as `(TS\d+)` = literal `TS` followed by digits) is represented by
tagging each piece with the same group number; the captured text is the
concatenation of the pieces in order. -/
inductive Tok where
  | lit (s : String) (g : Option Nat)
  | one (c : CClass) (g : Option Nat)
  | plusG (c : CClass) (g : Option Nat)
  | plusL (c : CClass) (g : Option Nat)
  | litAlt (alts : List String) (g : Option Nat)
  | opt (ts : List Tok)
  | eol
deriving Repr

/-- Captured pieces in match order, tagged with their group number. -/
abbrev Caps := List (Nat × String)

/-- JavaScript group read `match[g]`: `none` when the group did not
participate in the match, otherwise the concatenation of its pieces. -/
def capOf (caps : Caps) (g : Nat) : Option String :=
  if caps.any (fun p => p.1 == g) then
    some (String.join ((caps.filter (fun p => p.1 == g)).map (fun p => p.2)))
  else none

/-- Prepend a capture piece when the token is a capturing one. -/
def pushCap (g : Option Nat) (s : String) (caps : Caps) : Caps :=
  match g with
  | some n => (n, s) :: caps
  | none => caps

/-- Longest run of leading characters matching a class. -/
def leadRun (c : CClass) : List Char → Nat
  | [] => 0
  | x :: xs => if c.matchesChar x then leadRun c xs + 1 else 0

/-- Backtracking matcher for a token sequence against a prefix of `cs`,
returning captures and the unconsumed suffix.  Greedy `+` tries the longest
repetition first, lazy `+?` the shortest; alternation and the greedy `(?:)?`
try their branches in the order JavaScript does.  `fuel` only bounds the
nesting depth, which for the fixed patterns below never exceeds their size. -/
def tryMatch : Nat → List Tok → List Char → Option (Caps × List Char)
  | 0, _, _ => none
  | _ + 1, [], cs => some ([], cs)
  | fuel + 1, tok :: rest, cs =>
    match tok with
    | .lit s g =>
      if s.data.isPrefixOf cs then
        (tryMatch fuel rest (cs.drop s.data.length)).map
          (fun r => (pushCap g s r.1, r.2))
      else none
    | .one c g =>
      match cs with
      | [] => none
      | x :: xs =>
        if c.matchesChar x then
          (tryMatch fuel rest xs).map (fun r => (pushCap g ⟨[x]⟩ r.1, r.2))
        else none
    | .plusG c g =>
      let m := leadRun c cs
      ((List.range m).map (fun i => m - i)).foldl
        (fun acc k =>
          acc <|> (tryMatch fuel rest (cs.drop k)).map
            (fun r => (pushCap g ⟨cs.take k⟩ r.1, r.2)))
        none
    | .plusL c g =>
      let m := leadRun c cs
      ((List.range m).map (fun i => i + 1)).foldl
        (fun acc k =>
          acc <|> (tryMatch fuel rest (cs.drop k)).map
            (fun r => (pushCap g ⟨cs.take k⟩ r.1, r.2)))
        none
    | .litAlt alts g =>
      alts.foldl
        (fun acc a =>
          acc <|>
            (if a.data.isPrefixOf cs then
              (tryMatch fuel rest (cs.drop a.data.length)).map
                (fun r => (pushCap g a r.1, r.2))
            else none))
        none
    | .opt ts =>
      tryMatch fuel (ts ++ rest) cs <|> tryMatch fuel rest cs
    | .eol =>
      match cs with
      | [] => tryMatch fuel rest []
      | x :: _ => if x == '\n' then tryMatch fuel rest cs else none

/-- Depth bound passed to `tryMatch`; every pattern below has size well
under this, and every recursive call shrinks the token list. -/
def matchFuel : Nat := 100

/-- The `regex.exec` loop under flags `gm`: scan the subject left to right,
attempting the (line-anchored) pattern at the start of the subject and after
every newline, collecting the captures of each successive non-overlapping
match and resuming right after a match's end. -/
def execScan (toks : List Tok) : Nat → List Char → Bool → List Caps
  | 0, _, _ => []
  | fuel + 1, cs, atStart =>
    match (if atStart then tryMatch matchFuel toks cs else none) with
    | some (caps, rest) => caps :: execScan toks fuel rest false
    | none =>
      match cs with
      | [] => []
      | c :: cs' => execScan toks fuel cs' (c == '\n')

/-- All matches of an anchored `gm`-pattern in a subject string. -/
def regexMatches (toks : List Tok) (s : String) : List Caps :=
  execScan toks (s.data.length + 1) s.data true

/-- JavaScript `parseInt(s, 10)` on a digit string. -/
def parseIntDec (s : String) : Nat :=
  s.data.foldl (fun n c => n * 10 + (c.toNat - 48)) 0

/-- JavaScript `String.prototype.startsWith`. -/
def jsStartsWith (s pre : String) : Bool :=
  pre.data.isPrefixOf s.data

/-- `TscDiagnostic` of tsc-runner.ts. -/
structure TscDiagnostic where
  file : String
  line : Nat
  column : Nat
  code : String
  message : String
  severity : Sev
deriving DecidableEq, Repr

/-- `TscResult` of tsc-runner.ts. -/
structure TscResult where
  success : Bool
  diagnostics : List TscDiagnostic
  errorCount : Nat
  warningCount : Nat
  skipped : Option String := none
deriving DecidableEq, Repr

/-- The tsc output pattern `^(.+)\((\d+),(\d+)\):\s+(error|warning)\s+(TS\d+):\s+(.+)$`. -/
def tscRegex : List Tok :=
  [ .plusG .dot (some 1), .lit "(" none, .plusG .digit (some 2), .lit "," none,
    .plusG .digit (some 3), .lit "):" none, .plusG .ws none,
    .litAlt ["error", "warning"] (some 4), .plusG .ws none,
    .lit "TS" (some 5), .plusG .digit (some 5), .lit ":" none, .plusG .ws none,
    .plusG .dot (some 6), .eol ]

/-- `parseTscOutput` of tsc-runner.ts: run the pattern over the raw output
and build one diagnostic per match; `success` is `errorCount === 0`. -/
def parseTscOutput (output : String) : TscResult :=
  let diagnostics := (regexMatches tscRegex output).filterMap (fun caps => do
    let file ← capOf caps 1
    let lineS ← capOf caps 2
    let colS ← capOf caps 3
    let sevS ← capOf caps 4
    let code ← capOf caps 5
    let message ← capOf caps 6
    pure { file := file, line := parseIntDec lineS, column := parseIntDec colS,
           severity := if sevS == "error" then Sev.error else Sev.warning,
           code := code, message := message : TscDiagnostic })
  let errorCount := (diagnostics.filter (fun d => d.severity == Sev.error)).length
  let warningCount := (diagnostics.filter (fun d => d.severity == Sev.warning)).length
  { success := errorCount == 0, diagnostics := diagnostics,
    errorCount := errorCount, warningCount := warningCount }

/-- `GoDiagnostic` of go-runner.ts (it has no `code` field). -/
structure GoDiagnostic where
  file : String
  line : Nat
  column : Nat
  message : String
  severity : Sev
deriving DecidableEq, Repr

/-- `GoResult` of go-runner.ts. -/
structure GoResult where
  success : Bool
  diagnostics : List GoDiagnostic
  errorCount : Nat
  warningCount : Nat
  skipped : Option String := none
deriving DecidableEq, Repr

/-- The go vet output pattern `^(.+?\.go):(\d+):(\d+):\s+(.+)$`. -/
def goRegex : List Tok :=
  [ .plusL .dot (some 1), .lit ".go" (some 1), .lit ":" none,
    .plusG .digit (some 2), .lit ":" none, .plusG .digit (some 3), .lit ":" none,
    .plusG .ws none, .plusG .dot (some 4), .eol ]

/-- `parseGoOutput` of go-runner.ts: every match is classified as a warning;
`success` is `diagnostics.length === 0` and `errorCount` is the constant 0. -/
def parseGoOutput (output : String) : GoResult :=
  let diagnostics := (regexMatches goRegex output).filterMap (fun caps => do
    let file ← capOf caps 1
    let lineS ← capOf caps 2
    let colS ← capOf caps 3
    let message ← capOf caps 4
    pure { file := file, line := parseIntDec lineS, column := parseIntDec colS,
           message := message, severity := Sev.warning : GoDiagnostic })
  { success := diagnostics.length == 0, diagnostics := diagnostics,
    errorCount := 0, warningCount := diagnostics.length }

/-- The tool tag `'mypy' | 'pylint' | 'none'` of python-runner.ts. -/
inductive PyTool where
  | mypy
  | pylint
  | none
deriving DecidableEq, BEq, Repr

/-- `PythonDiagnostic` of python-runner.ts. -/
structure PythonDiagnostic where
  file : String
  line : Nat
  column : Nat
  code : String
  message : String
  severity : Sev
deriving DecidableEq, Repr

/-- `PythonResult` of python-runner.ts. -/
structure PythonResult where
  success : Bool
  diagnostics : List PythonDiagnostic
  errorCount : Nat
  warningCount : Nat
  tool : PyTool
  skipped : Option String := none
deriving DecidableEq, Repr

/-- The mypy output pattern
`^(.+?\.py):(\d+):(\d+): (error|warning|note): (.+?)(?:\s+\[([^\]]+)\])?$`. -/
def mypyRegex : List Tok :=
  [ .plusL .dot (some 1), .lit ".py" (some 1), .lit ":" none,
    .plusG .digit (some 2), .lit ":" none, .plusG .digit (some 3), .lit ": " none,
    .litAlt ["error", "warning", "note"] (some 4), .lit ": " none,
    .plusL .dot (some 5),
    .opt [ .plusG .ws none, .lit "[" none, .plusG .notRBracket (some 6), .lit "]" none ],
    .eol ]

/-- `parseMypyOutput` of python-runner.ts: `note` matches are skipped, the
optional bracketed code defaults to the empty string, and `success` is
`errorCount === 0`; the result is tagged `tool: 'mypy'`. -/
def parseMypyOutput (output : String) : PythonResult :=
  let diagnostics := (regexMatches mypyRegex output).filterMap (fun caps => do
    let file ← capOf caps 1
    let lineS ← capOf caps 2
    let colS ← capOf caps 3
    let sevS ← capOf caps 4
    let message ← capOf caps 5
    if sevS == "note" then none
    else
      pure { file := file, line := parseIntDec lineS, column := parseIntDec colS,
             severity := if sevS == "error" then Sev.error else Sev.warning,
             message := message, code := (capOf caps 6).getD "" : PythonDiagnostic })
  let errorCount := (diagnostics.filter (fun d => d.severity == Sev.error)).length
  let warningCount := (diagnostics.filter (fun d => d.severity == Sev.warning)).length
  { success := errorCount == 0, diagnostics := diagnostics,
    errorCount := errorCount, warningCount := warningCount, tool := PyTool.mypy }

/-- The pylint output pattern `^(.+?\.py):(\d+):(\d+): ([A-Z]\d+): (.+)$`. -/
def pylintRegex : List Tok :=
  [ .plusL .dot (some 1), .lit ".py" (some 1), .lit ":" none,
    .plusG .digit (some 2), .lit ":" none, .plusG .digit (some 3), .lit ": " none,
    .one .upper (some 4), .plusG .digit (some 4), .lit ": " none,
    .plusG .dot (some 5), .eol ]

/-- `parsePylintOutput` of python-runner.ts: codes starting with `E` or `F`
classify as errors, every other code as a warning; `success` is
`errorCount === 0`; the result is tagged `tool: 'pylint'`. -/
def parsePylintOutput (output : String) : PythonResult :=
  let diagnostics := (regexMatches pylintRegex output).filterMap (fun caps => do
    let file ← capOf caps 1
    let lineS ← capOf caps 2
    let colS ← capOf caps 3
    let code ← capOf caps 4
    let message ← capOf caps 5
    let isError := jsStartsWith code "E" || jsStartsWith code "F"
    pure { file := file, line := parseIntDec lineS, column := parseIntDec colS,
           code := code, message := message,
           severity := if isError then Sev.error else Sev.warning : PythonDiagnostic })
  let errorCount := (diagnostics.filter (fun d => d.severity == Sev.error)).length
  let warningCount := (diagnostics.filter (fun d => d.severity == Sev.warning)).length
  { success := errorCount == 0, diagnostics := diagnostics,
    errorCount := errorCount, warningCount := warningCount, tool := PyTool.pylint }


/-- Outcome of one `execFileSync` invocation: exit zero, an `ENOENT`
(binary not on the search path), or an abnormal exit (non-zero exit,
timeout or signal) with the captured standard streams. -/
inductive ExecOutcome where
  | ok
  | enoent
  | fail (stdout : String) (stderr : String)
deriving DecidableEq, Repr

/-- An `existsSync` oracle: which paths exist on the filesystem. -/
abbrev FsExists := String → Bool

/-- Node `path.join(directory, name)` for the simple two-segment uses here. -/
def pathJoin (directory name : String) : String :=
  directory ++ "/" ++ name

/-- The synthesized silent-crash diagnostic of tsc-runner.ts. -/
def tscCrashResult : TscResult :=
  { success := false,
    diagnostics := [{ file := ".", line := 0, column := 0, code := "tsc-crash",
                      message := "tsc exited with errors but produced no diagnostic output (possible configuration issue)",
                      severity := Sev.error }],
    errorCount := 1, warningCount := 0 }

/-- `runTscDiagnostics` of tsc-runner.ts: skip without a tsconfig.json; exit
zero means clean; `ENOENT` means the binary is missing (skip); otherwise take
`error.stdout || error.stderr || ''` and either synthesize the crash
diagnostic (blank output) or parse the output. -/
def runTscDiagnostics (fs : FsExists) (exec : ExecOutcome) (directory : String) : TscResult :=
  if !(fs (pathJoin directory "tsconfig.json")) then
    { success := true, diagnostics := [], errorCount := 0, warningCount := 0,
      skipped := some "no tsconfig.json found in directory" }
  else
    match exec with
    | .ok => { success := true, diagnostics := [], errorCount := 0, warningCount := 0 }
    | .enoent =>
      { success := true, diagnostics := [], errorCount := 0, warningCount := 0,
        skipped := some "`tsc` binary not found in PATH" }
    | .fail stdout stderr =>
      let output := jsOrStr stdout (jsOrStr stderr "")
      if jsTrim output = "" then tscCrashResult
      else parseTscOutput output

/-- `runGoDiagnostics` of go-runner.ts: skip without a go.mod; exit zero means
clean; `ENOENT` means the binary is missing; otherwise parse
`error.stderr || error.stdout || ''` — there is no silent-crash branch. -/
def runGoDiagnostics (fs : FsExists) (exec : ExecOutcome) (directory : String) : GoResult :=
  if !(fs (pathJoin directory "go.mod")) then
    { success := true, diagnostics := [], errorCount := 0, warningCount := 0,
      skipped := some "no go.mod found in directory" }
  else
    match exec with
    | .ok => { success := true, diagnostics := [], errorCount := 0, warningCount := 0 }
    | .enoent =>
      { success := true, diagnostics := [], errorCount := 0, warningCount := 0,
        skipped := some "`go` binary not found in PATH" }
    | .fail stdout stderr =>
      let output := jsOrStr stderr (jsOrStr stdout "")
      parseGoOutput output

/-- The regex class `[a-zA-Z]` (an ASCII letter). -/
def isAsciiLetterB (c : Char) : Bool :=
  (65 ≤ c.toNat && c.toNat ≤ 90) || (97 ≤ c.toNat && c.toNat ≤ 122)

/-- The regex class `[a-zA-Z0-9._-]` of the command-name validation. -/
def isCmdChar (c : Char) : Bool :=
  isAsciiLetterB c || c.isDigit || c == '.' || c == '_' || c == '-'

/-- The validation regex `^[a-zA-Z][a-zA-Z0-9._-]*$` of servers.ts: a
leading ASCII letter followed by letters, digits, dots, underscores or
hyphens only. -/
def validCommandName (s : String) : Bool :=
  match s.data with
  | [] => false
  | c :: rest => isAsciiLetterB c && rest.all isCmdChar

/-- `commandExists` of servers.ts.  The `probe` oracle abstracts the
`which`/`where` invocation (`true` means it exited zero; a thrown error,
non-zero exit or timeout is `false` through the catch block).  An empty or
non-matching command name returns `false` before the probe is consulted,
mirroring `!command || !regex.test(command)`. -/
def commandExists (probe : String → Bool) (command : String) : Bool :=
  if command = "" then false
  else if !validCommandName command then false
  else probe command

/-- The synthesized silent-crash diagnostic of the mypy branch. -/
def mypyCrashResult : PythonResult :=
  { success := false,
    diagnostics := [{ file := ".", line := 0, column := 0, code := "mypy-crash",
                      message := "mypy exited with errors but produced no diagnostic output (possible configuration issue)",
                      severity := Sev.error }],
    errorCount := 1, warningCount := 0, tool := PyTool.mypy }

/-- `runMypy` of python-runner.ts: the parsed output is `error.stdout || ''`
only (stderr is never parsed); blank output synthesizes the crash
diagnostic. -/
def runMypy (exec : ExecOutcome) : PythonResult :=
  match exec with
  | .ok =>
    { success := true, diagnostics := [], errorCount := 0, warningCount := 0,
      tool := PyTool.mypy }
  | .enoent =>
    { success := true, diagnostics := [], errorCount := 0, warningCount := 0,
      tool := PyTool.mypy, skipped := some "`mypy` binary not found in PATH" }
  | .fail stdout _ =>
    let output := jsOrStr stdout ""
    if jsTrim output = "" then mypyCrashResult
    else parseMypyOutput output

/-- The synthesized silent-crash diagnostic of the pylint branch. -/
def pylintCrashResult : PythonResult :=
  { success := false,
    diagnostics := [{ file := ".", line := 0, column := 0, code := "pylint-crash",
                      message := "pylint exited with errors but produced no diagnostic output (possible configuration issue)",
                      severity := Sev.error }],
    errorCount := 1, warningCount := 0, tool := PyTool.pylint }

/-- `runPylint` of python-runner.ts: parsed output is
`error.stdout || error.stderr || ''`; blank output synthesizes the crash
diagnostic. -/
def runPylint (exec : ExecOutcome) : PythonResult :=
  match exec with
  | .ok =>
    { success := true, diagnostics := [], errorCount := 0, warningCount := 0,
      tool := PyTool.pylint }
  | .enoent =>
    { success := true, diagnostics := [], errorCount := 0, warningCount := 0,
      tool := PyTool.pylint, skipped := some "`pylint` binary not found in PATH" }
  | .fail stdout stderr =>
    let output := jsOrStr stdout (jsOrStr stderr "")
    if jsTrim output = "" then pylintCrashResult
    else parsePylintOutput output

/-- `runPythonDiagnostics` of python-runner.ts: require one of the three
Python project markers, then prefer mypy over pylint via `commandExists`,
else report that neither tool was found. -/
def runPythonDiagnostics (fs : FsExists) (probe : String → Bool)
    (execMypy execPylint : ExecOutcome) (directory : String) : PythonResult :=
  let hasPyproject := fs (pathJoin directory "pyproject.toml")
  let hasRequirements := fs (pathJoin directory "requirements.txt")
  let hasSetupPy := fs (pathJoin directory "setup.py")
  if !hasPyproject && !hasRequirements && !hasSetupPy then
    { success := true, diagnostics := [], errorCount := 0, warningCount := 0,
      tool := PyTool.none,
      skipped := some "no Python project files found (pyproject.toml, requirements.txt, or setup.py)" }
  else if commandExists probe "mypy" then runMypy execMypy
  else if commandExists probe "pylint" then runPylint execPylint
  else
    { success := true, diagnostics := [], errorCount := 0, warningCount := 0,
      tool := PyTool.none, skipped := some "neither mypy nor pylint found in PATH" }

/-- JavaScript values reachable while the cargo parser walks decoded JSON:
the JSON data constructors plus `undefined`, which property reads on objects
lacking the key (and on primitives) produce.  Numeric JSON payloads are
modelled as integers (they are line/column numbers here). -/
inductive JsVal where
  | null
  | undefined
  | bool (b : Bool)
  | num (n : Int)
  | str (s : String)
  | arr (elems : List JsVal)
  | obj (fields : List (String × JsVal))

/-- JavaScript nullish test (`null` or `undefined`). -/
def jsNullish : JsVal → Bool
  | .null => true
  | .undefined => true
  | _ => false

/-- JavaScript truthiness: `null`, `undefined`, `false`, `0` and `''` are
falsy, everything else (objects and arrays included) is truthy. -/
def jsTruthy : JsVal → Bool
  | .null => false
  | .undefined => false
  | .bool b => b
  | .num n => n != 0
  | .str s => s != ""
  | .arr _ => true
  | .obj _ => true

/-- Does the value equal a given JavaScript string literal (`v === 'lit'`)? -/
def isStrEq (v : JsVal) (lit : String) : Bool :=
  match v with
  | .str s => s == lit
  | _ => false

/-- JavaScript property read `v.k`: a TypeError (modelled as `Except.error`)
on a nullish receiver, the field (or `undefined`) on an object, and
`undefined` on any other value. -/
def jsAccess : JsVal → String → Except Unit JsVal
  | .null, _ => .error ()
  | .undefined, _ => .error ()
  | .obj fields, k => .ok ((fields.lookup k).getD .undefined)
  | _, _ => .ok .undefined

/-- Total description of a successful property read: the field of an object
(defaulting to `undefined`), `undefined` elsewhere.  `jsAccess` returns
exactly this value whenever the receiver is not nullish. -/
def jsFieldD (v : JsVal) (k : String) : JsVal :=
  match v with
  | .obj fields => (fields.lookup k).getD .undefined
  | _ => .undefined

/-- `Array.prototype.find(s => s.is_primary)`: first element whose
`is_primary` property is truthy; reading `is_primary` on a nullish element
throws. -/
def findPrim : List JsVal → Except Unit (Option JsVal)
  | [] => .ok none
  | s :: rest => do
    let b ← jsAccess s "is_primary"
    if jsTruthy b then pure (some s) else findPrim rest

/-- The expression `spans?.find(s => s.is_primary)`: optional chaining makes
a nullish `spans` yield `undefined`; on an array the find runs; on any other
value `.find` is not a function and a TypeError is thrown. -/
def spansFindPrimary : JsVal → Except Unit (Option JsVal)
  | .null => .ok none
  | .undefined => .ok none
  | .arr elems => findPrim elems
  | _ => .error ()

/-- `RustDiagnostic` of rust-runner.ts.  The pushed fields come from
untyped JSON (`msg: any`), so everything but the checked severity is an
arbitrary JavaScript value. -/
structure RustDiagnostic where
  file : JsVal
  line : JsVal
  column : JsVal
  code : JsVal
  message : JsVal
  severity : Sev

/-- `RustResult` of rust-runner.ts. -/
structure RustResult where
  success : Bool
  diagnostics : List RustDiagnostic
  errorCount : Nat
  warningCount : Nat
  skipped : Option String := none

/-- The per-message body of the `parseRustOutput` loop, applied to one
decoded JSON line: drop anything that is not a `compiler-message` with an
`error` or `warning` level and a primary span; otherwise build the
diagnostic from the primary span's `file_name`, `line_start` and
`column_start` and from `message.code?.code || ''`. -/
def rustMessageToDiagnostic (msg : JsVal) : Except Unit (Option RustDiagnostic) :=
  match jsAccess msg "reason" with
  | .error e => .error e
  | .ok reason =>
    if !(isStrEq reason "compiler-message") then .ok none
    else
      match jsAccess msg "message" with
      | .error e => .error e
      | .ok innerMessage =>
        if !(jsTruthy innerMessage) then .ok none
        else
          match jsAccess innerMessage "level" with
          | .error e => .error e
          | .ok level =>
            if !(isStrEq level "error") && !(isStrEq level "warning") then .ok none
            else
              match jsAccess innerMessage "spans" with
              | .error e => .error e
              | .ok spansV =>
                match spansFindPrimary spansV with
                | .error e => .error e
                | .ok none => .ok none
                | .ok (some primarySpan) =>
                  match jsAccess innerMessage "code" with
                  | .error e => .error e
                  | .ok codeV =>
                    match
                      (if jsNullish codeV then Except.ok JsVal.undefined
                       else jsAccess codeV "code") with
                    | .error e => .error e
                    | .ok codeCodeV =>
                      match jsAccess innerMessage "message" with
                      | .error e => .error e
                      | .ok innerMsgV =>
                        match jsAccess primarySpan "file_name" with
                        | .error e => .error e
                        | .ok fileV =>
                          match jsAccess primarySpan "line_start" with
                          | .error e => .error e
                          | .ok lineV =>
                            match jsAccess primarySpan "column_start" with
                            | .error e => .error e
                            | .ok colV =>
                              .ok (some
                                { severity := if isStrEq level "error" then Sev.error
                                              else Sev.warning,
                                  code := if jsTruthy codeCodeV then codeCodeV
                                          else JsVal.str "",
                                  message := innerMsgV, file := fileV,
                                  line := lineV, column := colV })

/-- Split a character list at every occurrence of the separator
(JavaScript `String.prototype.split` with a one-character separator). -/
def splitCharList (sep : Char) : List Char → List (List Char)
  | [] => [[]]
  | c :: rest =>
    let r := splitCharList sep rest
    if c == sep then [] :: r
    else
      match r with
      | [] => [[c]]
      | h :: t => (c :: h) :: t

/-- JavaScript `output.split('\n')`. -/
def jsSplitNewline (s : String) : List String :=
  (splitCharList '\n' s.data).map (fun cs => (⟨cs⟩ : String))

/-- One line of the `parseRustOutput` loop: trim (tolerating CRLF), skip
blank lines and lines the JSON oracle `jp` cannot decode, then process the
decoded message. -/
def rustLineStep (jp : String → Option JsVal) (line : String) :
    Except Unit (Option RustDiagnostic) :=
  let trimmedLine := jsTrim line
  if trimmedLine = "" then .ok none
  else
    match jp trimmedLine with
    | none => .ok none
    | some msg => rustMessageToDiagnostic msg

/-- `parseRustOutput` of rust-runner.ts over a `JSON.parse` oracle `jp`:
split on newlines, process each line, and count severities; `success` is
`errorCount === 0`.  A JavaScript TypeError escaping the loop is the
`Except.error` case. -/
def parseRustOutput (jp : String → Option JsVal) (output : String) :
    Except Unit RustResult := do
  let diagnostics ← (jsSplitNewline output).foldlM
    (fun acc line => do
      let d? ← rustLineStep jp line
      match d? with
      | some d => pure (acc ++ [d])
      | none => pure acc)
    ([] : List RustDiagnostic)
  let errorCount := (diagnostics.filter (fun d => d.severity == Sev.error)).length
  let warningCount := (diagnostics.filter (fun d => d.severity == Sev.warning)).length
  pure { success := errorCount == 0, diagnostics := diagnostics,
         errorCount := errorCount, warningCount := warningCount }

/-- `runRustDiagnostics` of rust-runner.ts: skip without a Cargo.toml; exit
zero means clean; `ENOENT` means the binary is missing; otherwise parse
`error.stdout || error.stderr || ''` — there is no silent-crash branch. -/
def runRustDiagnostics (jp : String → Option JsVal) (fs : FsExists)
    (exec : ExecOutcome) (directory : String) : Except Unit RustResult :=
  if !(fs (pathJoin directory "Cargo.toml")) then
    .ok { success := true, diagnostics := [], errorCount := 0, warningCount := 0,
          skipped := some "no Cargo.toml found in directory" }
  else
    match exec with
    | .ok => .ok { success := true, diagnostics := [], errorCount := 0, warningCount := 0 }
    | .enoent =>
      .ok { success := true, diagnostics := [], errorCount := 0, warningCount := 0,
            skipped := some "`cargo` binary not found in PATH" }
    | .fail stdout stderr =>
      parseRustOutput jp (jsOrStr stdout (jsOrStr stderr ""))

/-- Modelled from the spec: the `Diagnostic` shape of the language-server
session collaborator (src/tools/lsp/index.ts is not part of the sources
here); spec section 6 gives `line, column, message, severity-as-numeric-code,
code?` with code 1 = error and 2 = warning. -/
structure LspDiagnostic where
  line : Nat
  column : Nat
  message : String
  severity : Nat
  code : Option String := none
deriving DecidableEq, Repr

/-- `LspDiagnosticWithFile` of lsp-aggregator.ts. -/
structure LspDiagnosticWithFile where
  file : String
  diagnostic : LspDiagnostic
deriving DecidableEq, Repr

/-- `LspAggregationResult` of lsp-aggregator.ts. -/
structure LspAggregationResult where
  success : Bool
  diagnostics : List LspDiagnosticWithFile
  errorCount : Nat
  warningCount : Nat
  filesChecked : Nat
deriving DecidableEq, Repr

/-- Outcome of the per-file sequence of the aggregation loop:
`getClientForFile` found no server for the extension (skip, not counted),
some step of session acquisition / open / read threw (skip, not counted),
or the full sequence ran and `getDiagnostics` returned this list. -/
inductive FileOutcome where
  | noClient
  | failed
  | processed (diags : List LspDiagnostic)
deriving DecidableEq, Repr

/-- One iteration of the aggregation loop body: a fully processed file
appends the diagnostics read back for it (paired with the file) and bumps
the processed-file count; a file with no client or a failed per-file
sequence leaves the accumulator unchanged. -/
def lspAggStep (acc : List LspDiagnosticWithFile × Nat)
    (fo : String × FileOutcome) : List LspDiagnosticWithFile × Nat :=
  match fo.2 with
  | .noClient => acc
  | .failed => acc
  | .processed diags =>
    (acc.1 ++ diags.map (fun d => { file := fo.1, diagnostic := d }), acc.2 + 1)

/-- The aggregation loop of `runLspAggregatedDiagnostics` of
lsp-aggregator.ts over the discovered files (in walk order) with their
per-file outcomes: append every diagnostic read back for a fully processed
file, count such files, then count severities 1 and 2; `success` is
`errorCount === 0`. -/
def runLspAggregatedDiagnostics (files : List (String × FileOutcome)) :
    LspAggregationResult :=
  let acc := files.foldl lspAggStep ([], 0)
  let allDiagnostics := acc.1
  let filesChecked := acc.2
  let errorCount := (allDiagnostics.filter (fun d => d.diagnostic.severity == 1)).length
  let warningCount := (allDiagnostics.filter (fun d => d.diagnostic.severity == 2)).length
  { success := errorCount == 0, diagnostics := allDiagnostics,
    errorCount := errorCount, warningCount := warningCount,
    filesChecked := filesChecked }

/-- `ProjectType` of the dispatcher. -/
inductive ProjectType where
  | typescript
  | go
  | rust
  | python
  | unknown
deriving DecidableEq, Repr

/-- `detectProjectType` of index.ts: probe the marker files in fixed
priority order, first match wins. -/
def detectProjectType (fs : FsExists) (directory : String) : ProjectType :=
  if fs (pathJoin directory "tsconfig.json") then .typescript
  else if fs (pathJoin directory "go.mod") then .go
  else if fs (pathJoin directory "Cargo.toml") then .rust
  else if fs (pathJoin directory "pyproject.toml") ||
          fs (pathJoin directory "requirements.txt") ||
          fs (pathJoin directory "setup.py") then .python
  else .unknown

/-- The caller-facing strategy argument `DiagnosticsStrategy`. -/
inductive DiagnosticsStrategy where
  | tsc
  | go
  | rust
  | python
  | lsp
  | auto
deriving DecidableEq, Repr

/-- The strategy tag of a `DirectoryDiagnosticResult`. -/
inductive ResultStrategy where
  | tsc
  | go
  | rust
  | python
  | lsp
  | skipped
deriving DecidableEq, Repr

/-- `DirectoryDiagnosticResult` of index.ts. -/
structure DirectoryDiagnosticResult where
  strategy : ResultStrategy
  success : Bool
  errorCount : Nat
  warningCount : Nat
  diagnostics : String
  summary : String
deriving DecidableEq, Repr

/-- `makeSkippedResult` of index.ts. -/
def makeSkippedResult (summary : String) : DirectoryDiagnosticResult :=
  { strategy := .skipped, success := true, errorCount := 0, warningCount := 0,
    diagnostics := "", summary := summary }

/-- Display form of a severity (`${diag.severity}` interpolates the union
string). -/
def sevDisplay : Sev → String
  | .error => "error"
  | .warning => "warning"

/-- JavaScript truthiness of the optional `skipped` reason string
(`if (result.skipped)`). -/
def optStrTruthy : Option String → Bool
  | some s => s != ""
  | none => false

/-- Insertion-order grouping of diagnostics by file, as the `Map` in
`formatDiagnosticResult` produces. -/
def groupByFile {D : Type} (fileOf : D → String) (l : List D) :
    List (String × List D) :=
  l.foldl
    (fun acc d =>
      if acc.any (fun p => p.1 == fileOf d) then
        acc.map (fun p => if p.1 == fileOf d then (p.1, p.2 ++ [d]) else p)
      else acc ++ [(fileOf d, [d])])
    []

/-- `formatDiagnosticResult` of index.ts, generic over the diagnostic type
through display projections (the `code` projection is the runtime
`'code' in diag && diag.code` check: `none` when absent or falsy). -/
def formatDiagnosticResult {D : Type}
    (fileOf : D → String) (lineStr colStr : D → String)
    (sevOf : D → Sev) (codeAttr : D → Option String) (msgOf : D → String)
    (success : Bool) (diags : List D) (errorCount warningCount : Nat)
    (strategy : ResultStrategy) (toolName : String) : DirectoryDiagnosticResult :=
  let diagnostics :=
    if diags.length == 0 then "No diagnostics found. " ++ toolName ++ " passed!"
    else
      let fileOutputs := (groupByFile fileOf diags).map (fun p =>
        p.1 ++ ":\n" ++
        String.join (p.2.map (fun d =>
          let code := match codeAttr d with
            | some c => " [" ++ c ++ "]"
            | none => ""
          "  " ++ lineStr d ++ ":" ++ colStr d ++ " - " ++ sevDisplay (sevOf d) ++
            code ++ ": " ++ msgOf d ++ "\n")))
      String.intercalate "\n" fileOutputs
  let summary :=
    if diags.length == 0 then toolName ++ " passed: 0 errors, 0 warnings"
    else
      toolName ++ " " ++ (if success then "passed" else "failed") ++ ": " ++
        toString errorCount ++ " errors, " ++ toString warningCount ++ " warnings"
  { strategy := strategy, success := success, errorCount := errorCount,
    warningCount := warningCount, diagnostics := diagnostics, summary := summary }

/-- `formatTscResult` of index.ts. -/
def formatTscResult (result : TscResult) : DirectoryDiagnosticResult :=
  if optStrTruthy result.skipped then
    makeSkippedResult ("TypeScript diagnostics skipped: " ++ result.skipped.getD "")
  else
    formatDiagnosticResult (fun d => d.file) (fun d => toString d.line)
      (fun d => toString d.column) (fun d => d.severity)
      (fun d => if d.code != "" then some d.code else none) (fun d => d.message)
      result.success result.diagnostics result.errorCount result.warningCount
      .tsc "TypeScript check"

/-- `formatGoResult` of index.ts (`GoDiagnostic` has no `code` property, so
the runtime check always yields the empty suffix). -/
def formatGoResult (result : GoResult) : DirectoryDiagnosticResult :=
  if optStrTruthy result.skipped then
    makeSkippedResult ("Go diagnostics skipped: " ++ result.skipped.getD "")
  else
    formatDiagnosticResult (fun d => d.file) (fun d => toString d.line)
      (fun d => toString d.column) (fun d => d.severity)
      (fun _ => none) (fun d => d.message)
      result.success result.diagnostics result.errorCount result.warningCount
      .go "Go vet"

mutual

/-- JavaScript `String(v)` coercion used by template literals when
displaying the untyped fields of a rust diagnostic. -/
def jsToString : JsVal → String
  | .null => "null"
  | .undefined => "undefined"
  | .bool b => if b then "true" else "false"
  | .num n => toString n
  | .str s => s
  | .arr elems => jsArrToString elems
  | .obj _ => "[object Object]"

/-- `Array.prototype.toString`: comma-joined elements. -/
def jsArrToString : List JsVal → String
  | [] => ""
  | [x] => jsElemToString x
  | x :: xs => jsElemToString x ++ "," ++ jsArrToString xs

/-- Array element display: nullish elements render as the empty string. -/
def jsElemToString : JsVal → String
  | .null => ""
  | .undefined => ""
  | v => jsToString v

end

/-- `formatRustResult` of index.ts. -/
def formatRustResult (result : RustResult) : DirectoryDiagnosticResult :=
  if optStrTruthy result.skipped then
    makeSkippedResult ("Rust diagnostics skipped: " ++ result.skipped.getD "")
  else
    formatDiagnosticResult (fun d => jsToString d.file) (fun d => jsToString d.line)
      (fun d => jsToString d.column) (fun d => d.severity)
      (fun d => if jsTruthy d.code then some (jsToString d.code) else none)
      (fun d => jsToString d.message)
      result.success result.diagnostics result.errorCount result.warningCount
      .rust "Cargo check"

/-- `formatPythonResult` of index.ts. -/
def formatPythonResult (result : PythonResult) : DirectoryDiagnosticResult :=
  if optStrTruthy result.skipped then
    makeSkippedResult ("Python diagnostics skipped: " ++ result.skipped.getD "")
  else
    let toolName := match result.tool with
      | .mypy => "Mypy"
      | .pylint => "Pylint"
      | .none => "Python"
    formatDiagnosticResult (fun d => d.file) (fun d => toString d.line)
      (fun d => toString d.column) (fun d => d.severity)
      (fun d => if d.code != "" then some d.code else none) (fun d => d.message)
      result.success result.diagnostics result.errorCount result.warningCount
      .python toolName

/-- Modelled from the spec: `formatDiagnostics` of src/tools/lsp/utils.ts is
not part of the sources here; it renders a file's diagnostics list as
display text (spec section 7: a longer text block suitable for direct
display).  Only its use as an opaque text renderer matters to the claims. -/
def formatDiagnostics (diags : List LspDiagnostic) (file : String) : String :=
  String.join (diags.map (fun d =>
    "  " ++ toString d.line ++ ":" ++ toString d.column ++ " [severity " ++
      toString d.severity ++ "] " ++ d.message ++ " (" ++ file ++ ")\n"))

/-- `formatLspResult` of index.ts. -/
def formatLspResult (result : LspAggregationResult) : DirectoryDiagnosticResult :=
  let diagnostics :=
    if result.diagnostics.length == 0 then
      "Checked " ++ toString result.filesChecked ++ " files. No diagnostics found!"
    else
      let fileOutputs := (groupByFile (fun i => i.file) result.diagnostics).map
        (fun p => p.1 ++ ":\n" ++ formatDiagnostics (p.2.map (fun i => i.diagnostic)) p.1)
      String.intercalate "\n\n" fileOutputs
  let summary :=
    if result.diagnostics.length == 0 then
      "LSP check passed: 0 errors, 0 warnings (" ++ toString result.filesChecked ++ " files)"
    else
      "LSP check " ++ (if result.success then "passed" else "failed") ++ ": " ++
        toString result.errorCount ++ " errors, " ++ toString result.warningCount ++
        " warnings (" ++ toString result.filesChecked ++ " files)"
  { strategy := .lsp, success := result.success, errorCount := result.errorCount,
    warningCount := result.warningCount, diagnostics := diagnostics,
    summary := summary }

/-- The filesystem oracle triple of the dispatcher pre-flight checks:
`existsSync`, `statSync(...).isDirectory()`, and `realpathSync` (`none`
models a thrown resolution error). -/
structure FsEnv where
  pathExists : String → Bool
  isDirectory : String → Bool
  realpath : String → Option String

/-- Resolved strategy after the `auto` mapping. -/
inductive UseStrategy where
  | tsc
  | go
  | rust
  | python
  | lsp
deriving DecidableEq, Repr

/-- `runDirectoryDiagnostics` of index.ts over oracles for the filesystem,
the detector and the five runners (each runner takes the resolved
directory): validate the directory with three early skipped returns,
resolve the strategy (detection only under `auto`; an explicit strategy is
used verbatim), then format the selected runner's result. -/
def runDirectoryDiagnostics (env : FsEnv)
    (detect : String → ProjectType)
    (tscR : String → TscResult) (goR : String → GoResult)
    (rustR : String → RustResult) (pyR : String → PythonResult)
    (lspR : String → LspAggregationResult)
    (directory : String) (strategy : DiagnosticsStrategy) :
    DirectoryDiagnosticResult :=
  if !(env.pathExists directory) then
    makeSkippedResult ("Diagnostics skipped: directory does not exist: " ++ directory)
  else if !(env.isDirectory directory) then
    makeSkippedResult ("Diagnostics skipped: path is not a directory: " ++ directory)
  else
    match env.realpath directory with
    | none =>
      makeSkippedResult ("Diagnostics skipped: cannot resolve directory path: " ++ directory)
    | some resolvedDirectory =>
      let useStrategy : UseStrategy :=
        match strategy with
        | .auto =>
          match detect resolvedDirectory with
          | .typescript => .tsc
          | .go => .go
          | .rust => .rust
          | .python => .python
          | .unknown => .lsp
        | .tsc => .tsc
        | .go => .go
        | .rust => .rust
        | .python => .python
        | .lsp => .lsp
      match useStrategy with
      | .tsc => formatTscResult (tscR resolvedDirectory)
      | .go => formatGoResult (goR resolvedDirectory)
      | .rust => formatRustResult (rustR resolvedDirectory)
      | .python => formatPythonResult (pyR resolvedDirectory)
      | .lsp => formatLspResult (lspR resolvedDirectory)

/-- The needle occurs verbatim somewhere inside the haystack. -/
def substrOf (needle hay : String) : Prop :=
  ∃ a b, hay = a ++ (needle ++ b)

@[simp] lemma sev_beq_error_error : (Sev.error == Sev.error) = true := rfl

@[simp] lemma sev_beq_error_warning : (Sev.error == Sev.warning) = false := rfl

@[simp] lemma sev_beq_warning_error : (Sev.warning == Sev.error) = false := rfl

@[simp] lemma sev_beq_warning_warning : (Sev.warning == Sev.warning) = true := rfl

/-- Partitioning a list by the two severities accounts for every element. -/
lemma sev_filter_partition {α : Type} (f : α → Sev) (l : List α) :
    (l.filter (fun x => f x == Sev.error)).length
      + (l.filter (fun x => f x == Sev.warning)).length = l.length := by
  induction l with
  | nil => rfl
  | cons a t ih =>
    cases h : f a <;> simp [List.filter_cons, h] <;> omega

/-- C6: detectProjectType checks tsconfig.json, then go.mod, then
Cargo.toml, then any of pyproject.toml / requirements.txt / setup.py, in
that fixed order, returning on the first match; with both tsconfig.json and
go.mod present it returns typescript, and with no marker it returns
unknown. -/
theorem detectProjectType_priority (fs : FsExists) (directory : String) :
    (fs (pathJoin directory "tsconfig.json") = true →
      detectProjectType fs directory = ProjectType.typescript)
    ∧ (fs (pathJoin directory "tsconfig.json") = false →
       fs (pathJoin directory "go.mod") = true →
      detectProjectType fs directory = ProjectType.go)
    ∧ (fs (pathJoin directory "tsconfig.json") = false →
       fs (pathJoin directory "go.mod") = false →
       fs (pathJoin directory "Cargo.toml") = true →
      detectProjectType fs directory = ProjectType.rust)
    ∧ (fs (pathJoin directory "tsconfig.json") = false →
       fs (pathJoin directory "go.mod") = false →
       fs (pathJoin directory "Cargo.toml") = false →
       (fs (pathJoin directory "pyproject.toml")
         || fs (pathJoin directory "requirements.txt")
         || fs (pathJoin directory "setup.py")) = true →
      detectProjectType fs directory = ProjectType.python)
    ∧ (fs (pathJoin directory "tsconfig.json") = false →
       fs (pathJoin directory "go.mod") = false →
       fs (pathJoin directory "Cargo.toml") = false →
       fs (pathJoin directory "pyproject.toml") = false →
       fs (pathJoin directory "requirements.txt") = false →
       fs (pathJoin directory "setup.py") = false →
      detectProjectType fs directory = ProjectType.unknown)
    ∧ (fs (pathJoin directory "tsconfig.json") = true →
       fs (pathJoin directory "go.mod") = true →
      detectProjectType fs directory = ProjectType.typescript) := by
  refine ⟨fun h1 => ?_, fun h1 h2 => ?_, fun h1 h2 h3 => ?_,
    fun h1 h2 h3 h4 => ?_, fun h1 h2 h3 h4 h5 h6 => ?_, fun h1 _ => ?_⟩ <;>
  simp [detectProjectType, h1, *]

/-- Witness for C6: a directory carrying both the TypeScript and the Go
marker detects as typescript, and a directory with no marker detects as
unknown. -/
theorem detectProjectType_priority_witness :
    detectProjectType (fun p => p == "d/tsconfig.json" || p == "d/go.mod") "d"
      = ProjectType.typescript
    ∧ detectProjectType (fun _ => false) "d" = ProjectType.unknown := by
  constructor
  · exact (detectProjectType_priority
      (fun p => p == "d/tsconfig.json" || p == "d/go.mod") "d").2.2.2.2.2
      (by decide) (by decide)
  · exact (detectProjectType_priority (fun _ => false) "d").2.2.2.2.1
      rfl rfl rfl rfl rfl rfl

/-- C4: an invalid target directory makes the dispatcher return the skipped
shape (strategy skipped, success true, zero counts) with the matching
summary — containing "does not exist", "not a directory" or "cannot resolve
directory path" respectively — and the result does not depend on the
detector or on any runner (none is invoked: the oracles are arbitrary and
absent from the right-hand sides). -/
theorem runDirectoryDiagnostics_invalid_directory_skipped
    (env : FsEnv) (detect : String → ProjectType)
    (tscR : String → TscResult) (goR : String → GoResult)
    (rustR : String → RustResult) (pyR : String → PythonResult)
    (lspR : String → LspAggregationResult)
    (directory : String) (strategy : DiagnosticsStrategy) :
    (env.pathExists directory = false →
      runDirectoryDiagnostics env detect tscR goR rustR pyR lspR directory strategy
        = makeSkippedResult ("Diagnostics skipped: directory does not exist: " ++ directory)
      ∧ substrOf "does not exist"
          (runDirectoryDiagnostics env detect tscR goR rustR pyR lspR directory strategy).summary)
    ∧ (env.pathExists directory = true → env.isDirectory directory = false →
      runDirectoryDiagnostics env detect tscR goR rustR pyR lspR directory strategy
        = makeSkippedResult ("Diagnostics skipped: path is not a directory: " ++ directory)
      ∧ substrOf "not a directory"
          (runDirectoryDiagnostics env detect tscR goR rustR pyR lspR directory strategy).summary)
    ∧ (env.pathExists directory = true → env.isDirectory directory = true →
       env.realpath directory = none →
      runDirectoryDiagnostics env detect tscR goR rustR pyR lspR directory strategy
        = makeSkippedResult ("Diagnostics skipped: cannot resolve directory path: " ++ directory)
      ∧ substrOf "cannot resolve directory path"
          (runDirectoryDiagnostics env detect tscR goR rustR pyR lspR directory strategy).summary)
    ∧ (∀ s, makeSkippedResult s
        = { strategy := ResultStrategy.skipped, success := true, errorCount := 0,
            warningCount := 0, diagnostics := "", summary := s }) := by
  refine ⟨fun h1 => ?_, fun h1 h2 => ?_, fun h1 h2 h3 => ?_, fun s => rfl⟩
  · have hr : runDirectoryDiagnostics env detect tscR goR rustR pyR lspR directory strategy
        = makeSkippedResult ("Diagnostics skipped: directory does not exist: " ++ directory) := by
      simp [runDirectoryDiagnostics, h1]
    refine ⟨hr, ?_⟩
    rw [hr]
    exact ⟨"Diagnostics skipped: directory ", ": " ++ directory, by
      rw [← String.append_assoc, ← String.append_assoc]; rfl⟩
  · have hr : runDirectoryDiagnostics env detect tscR goR rustR pyR lspR directory strategy
        = makeSkippedResult ("Diagnostics skipped: path is not a directory: " ++ directory) := by
      simp [runDirectoryDiagnostics, h1, h2]
    refine ⟨hr, ?_⟩
    rw [hr]
    exact ⟨"Diagnostics skipped: path is ", ": " ++ directory, by
      rw [← String.append_assoc, ← String.append_assoc]; rfl⟩
  · have hr : runDirectoryDiagnostics env detect tscR goR rustR pyR lspR directory strategy
        = makeSkippedResult ("Diagnostics skipped: cannot resolve directory path: " ++ directory) := by
      simp [runDirectoryDiagnostics, h1, h2, h3]
    refine ⟨hr, ?_⟩
    rw [hr]
    exact ⟨"Diagnostics skipped: ", ": " ++ directory, by
      rw [← String.append_assoc, ← String.append_assoc]; rfl⟩

/-- Witness for C4: on a filesystem where nothing exists, any dispatch is
the skipped result naming the missing directory; the runner and detector
oracles passed here are arbitrary constants that are provably not
consulted. -/
theorem runDirectoryDiagnostics_invalid_directory_skipped_witness :
    runDirectoryDiagnostics
      { pathExists := fun _ => false, isDirectory := fun _ => false,
        realpath := fun _ => none }
      (fun _ => ProjectType.unknown)
      (fun _ => { success := true, diagnostics := [], errorCount := 0, warningCount := 0 })
      (fun _ => { success := true, diagnostics := [], errorCount := 0, warningCount := 0 })
      (fun _ => { success := true, diagnostics := [], errorCount := 0, warningCount := 0 })
      (fun _ => { success := true, diagnostics := [], errorCount := 0, warningCount := 0,
                  tool := PyTool.none })
      (fun _ => { success := true, diagnostics := [], errorCount := 0, warningCount := 0,
                  filesChecked := 0 })
      "proj" DiagnosticsStrategy.auto
      = makeSkippedResult ("Diagnostics skipped: directory does not exist: " ++ "proj") :=
  (runDirectoryDiagnostics_invalid_directory_skipped
    { pathExists := fun _ => false, isDirectory := fun _ => false,
      realpath := fun _ => none }
    (fun _ => ProjectType.unknown)
    (fun _ => { success := true, diagnostics := [], errorCount := 0, warningCount := 0 })
    (fun _ => { success := true, diagnostics := [], errorCount := 0, warningCount := 0 })
    (fun _ => { success := true, diagnostics := [], errorCount := 0, warningCount := 0 })
    (fun _ => { success := true, diagnostics := [], errorCount := 0, warningCount := 0,
                tool := PyTool.none })
    (fun _ => { success := true, diagnostics := [], errorCount := 0, warningCount := 0,
                filesChecked := 0 })
    "proj" DiagnosticsStrategy.auto).1 rfl |>.1

/-- C5: with a valid resolved directory, an explicit (non-auto) strategy
routes to exactly the runner of that name on the resolved directory — the
detector oracle is arbitrary and absent from every right-hand side, so no
project-type detection influences the result, and no strategy other than
the requested one (in particular not the LSP path) is consulted.  An
explicit tsc request on a directory without tsconfig.json produces the tsc
runner's skipped result (strategy `skipped`), not an LSP run. -/
theorem runDirectoryDiagnostics_explicit_strategy
    (env : FsEnv) (detect : String → ProjectType)
    (tscR : String → TscResult) (goR : String → GoResult)
    (rustR : String → RustResult) (pyR : String → PythonResult)
    (lspR : String → LspAggregationResult)
    (directory resolved : String)
    (h1 : env.pathExists directory = true)
    (h2 : env.isDirectory directory = true)
    (h3 : env.realpath directory = some resolved) :
    (runDirectoryDiagnostics env detect tscR goR rustR pyR lspR directory .tsc
       = formatTscResult (tscR resolved))
    ∧ (runDirectoryDiagnostics env detect tscR goR rustR pyR lspR directory .go
       = formatGoResult (goR resolved))
    ∧ (runDirectoryDiagnostics env detect tscR goR rustR pyR lspR directory .rust
       = formatRustResult (rustR resolved))
    ∧ (runDirectoryDiagnostics env detect tscR goR rustR pyR lspR directory .python
       = formatPythonResult (pyR resolved))
    ∧ (runDirectoryDiagnostics env detect tscR goR rustR pyR lspR directory .lsp
       = formatLspResult (lspR resolved))
    ∧ (∀ fs exec, fs (pathJoin resolved "tsconfig.json") = false →
        runDirectoryDiagnostics env detect
            (fun d => runTscDiagnostics fs exec d) goR rustR pyR lspR directory .tsc
          = makeSkippedResult "TypeScript diagnostics skipped: no tsconfig.json found in directory")
    ∧ (∀ s, (makeSkippedResult s).strategy = ResultStrategy.skipped) := by
  refine ⟨?_, ?_, ?_, ?_, ?_, fun fs exec hfs => ?_, fun s => rfl⟩ <;>
    simp [runDirectoryDiagnostics, h1, h2, h3, runTscDiagnostics, *,
      formatTscResult, optStrTruthy]

/-- Witness for C5: a concrete valid environment, an explicit tsc request, a
filesystem without tsconfig.json, and a detector that would have chosen the
LSP path had it been consulted; the result is the runner's skipped record. -/
theorem runDirectoryDiagnostics_explicit_strategy_witness :
    runDirectoryDiagnostics
      { pathExists := fun _ => true, isDirectory := fun _ => true,
        realpath := fun _ => some "resolved" }
      (fun _ => ProjectType.unknown)
      (fun d => runTscDiagnostics (fun _ => false) ExecOutcome.ok d)
      (fun _ => { success := true, diagnostics := [], errorCount := 0, warningCount := 0 })
      (fun _ => { success := true, diagnostics := [], errorCount := 0, warningCount := 0 })
      (fun _ => { success := true, diagnostics := [], errorCount := 0, warningCount := 0,
                  tool := PyTool.none })
      (fun _ => { success := true, diagnostics := [], errorCount := 0, warningCount := 0,
                  filesChecked := 0 })
      "proj" DiagnosticsStrategy.tsc
      = makeSkippedResult "TypeScript diagnostics skipped: no tsconfig.json found in directory" :=
  (runDirectoryDiagnostics_explicit_strategy
    { pathExists := fun _ => true, isDirectory := fun _ => true,
      realpath := fun _ => some "resolved" }
    (fun _ => ProjectType.unknown)
    (fun d => runTscDiagnostics (fun _ => false) ExecOutcome.ok d)
    (fun _ => { success := true, diagnostics := [], errorCount := 0, warningCount := 0 })
    (fun _ => { success := true, diagnostics := [], errorCount := 0, warningCount := 0 })
    (fun _ => { success := true, diagnostics := [], errorCount := 0, warningCount := 0,
                tool := PyTool.none })
    (fun _ => { success := true, diagnostics := [], errorCount := 0, warningCount := 0,
                filesChecked := 0 })
    "proj" "resolved" rfl rfl rfl).2.2.2.2.2.1 (fun _ => false) ExecOutcome.ok rfl

/-- C10: `commandExists` returns false — with the probe never consulted,
the probe being universally quantified and absent from the conclusion — for
every input that is empty, does not begin with an ASCII letter, or contains
a character outside letters, digits, dot, underscore and hyphen.  The
embedding is a total function, so no input makes it throw. -/
theorem commandExists_invalid_input_false (probe : String → Bool) (command : String)
    (h : command = ""
       ∨ (∃ c, command.data.head? = some c ∧ isAsciiLetterB c = false)
       ∨ (∃ c ∈ command.data, isCmdChar c = false)) :
    commandExists probe command = false := by
  rcases h with h | ⟨c, hc, hl⟩ | ⟨c, hmem, hbad⟩
  · simp [commandExists, h]
  · match hdata : command.data with
    | [] => simp [hdata] at hc
    | c0 :: rest =>
      rw [hdata] at hc
      simp only [List.head?] at hc
      have hne : ¬(command = "") := by
        intro hEq
        rw [hEq] at hdata
        simp at hdata
      have hceq : c0 = c := Option.some.inj hc
      have hl0 : isAsciiLetterB c0 = false := by rw [hceq]; exact hl
      have hvalid : validCommandName command = false := by
        simp [validCommandName, hdata, hl0]
      simp [commandExists, hne, hvalid]
  · match hdata : command.data with
    | [] =>
      have : command = "" := by
        cases command with
        | mk data => simp_all
      simp [commandExists, this]
    | c0 :: rest =>
      have hne : ¬(command = "") := by
        intro hEq
        rw [hEq] at hdata
        simp at hdata
      rw [hdata] at hmem
      have hvalid : validCommandName command = false := by
        rcases List.mem_cons.mp hmem with hceq | hcrest
        · have hl0 : isAsciiLetterB c0 = false := by
            subst hceq
            cases hA : isAsciiLetterB c
            · rfl
            · exact absurd hbad (by simp [isCmdChar, hA])
          simp [validCommandName, hdata, hl0]
        · have : rest.all isCmdChar = false := by
            cases hall : rest.all isCmdChar
            · rfl
            · exact absurd hbad (by simp [List.all_eq_true.mp hall c hcrest])
          simp [validCommandName, hdata, this]
      simp [commandExists, hne, hvalid]

/-- Witness for C10: the probe always answers true, yet the empty name, a
name starting with a digit, and a name containing a space and shell
metacharacters are all rejected. -/
theorem commandExists_invalid_input_false_witness :
    commandExists (fun _ => true) "" = false
    ∧ commandExists (fun _ => true) "1abc" = false
    ∧ commandExists (fun _ => true) "rm -rf /" = false := by
  refine ⟨?_, ?_, ?_⟩
  · exact commandExists_invalid_input_false (fun _ => true) "" (Or.inl rfl)
  · exact commandExists_invalid_input_false (fun _ => true) "1abc"
      (Or.inr (Or.inl ⟨'1', by decide⟩))
  · exact commandExists_invalid_input_false (fun _ => true) "rm -rf /"
      (Or.inr (Or.inr ⟨' ', by decide⟩))

/-- The aggregation fold only ever appends: the initial accumulator list is
contained in the final one. -/
lemma lspAgg_init_subset (files : List (String × FileOutcome))
    (init : List LspDiagnosticWithFile × Nat) :
    init.1 ⊆ (files.foldl lspAggStep init).1 := by
  induction files generalizing init with
  | nil => exact fun x hx => hx
  | cons fo t ih =>
    intro x hx
    refine ih (lspAggStep init fo) ?_
    cases fo with
    | mk f o =>
      cases o with
      | noClient => exact hx
      | failed => exact hx
      | processed diags => exact List.mem_append_left _ hx

/-- Every diagnostic read back for a fully processed file ends up in the
fold result, whatever the accumulator already holds. -/
lemma lspAgg_mem_fold (files : List (String × FileOutcome))
    (init : List LspDiagnosticWithFile × Nat)
    (f : String) (diags : List LspDiagnostic)
    (hmem : (f, FileOutcome.processed diags) ∈ files)
    (d : LspDiagnostic) (hd : d ∈ diags) :
    ({ file := f, diagnostic := d } : LspDiagnosticWithFile)
      ∈ (files.foldl lspAggStep init).1 := by
  induction files generalizing init with
  | nil => cases hmem
  | cons fo t ih =>
    rcases List.mem_cons.mp hmem with hhead | htail
    · subst hhead
      refine lspAgg_init_subset t (lspAggStep init (f, FileOutcome.processed diags)) ?_
      exact List.mem_append_right _ (List.mem_map_of_mem _ hd)
    · exact ih (lspAggStep init fo) htail

/-- Filtering by two mutually exclusive predicates keeps at most every
element. -/
lemma length_filter_two_le {α : Type} (p q : α → Bool)
    (hdisj : ∀ x, p x = true → q x = false) (l : List α) :
    (l.filter p).length + (l.filter q).length ≤ l.length := by
  induction l with
  | nil => exact Nat.le_refl 0
  | cons a t ih =>
    cases hpa : p a
    · cases hqa : q a
      · simp [List.filter_cons, hpa, hqa]
        omega
      · simp [List.filter_cons, hpa, hqa]
        omega
    · have hqa : q a = false := hdisj a hpa
      simp [List.filter_cons, hpa, hqa]
      omega

/-- Filtering by two mutually exclusive predicates misses any element that
satisfies neither, so the two counts together fall short of the length. -/
lemma length_filter_two_lt {α : Type} (p q : α → Bool)
    (hdisj : ∀ x, p x = true → q x = false) (l : List α)
    (x : α) (hx : x ∈ l) (hp : p x = false) (hq : q x = false) :
    (l.filter p).length + (l.filter q).length < l.length := by
  induction l with
  | nil => cases hx
  | cons a t ih =>
    rcases List.mem_cons.mp hx with hxa | hxt
    · subst hxa
      have hle := length_filter_two_le p q hdisj t
      simp [List.filter_cons, hp, hq]
      omega
    · have hlt := ih hxt
      cases hpa : p a
      · cases hqa : q a
        · simp [List.filter_cons, hpa, hqa]
          omega
        · simp [List.filter_cons, hpa, hqa]
          omega
      · have hqa : q a = false := hdisj a hpa
        simp [List.filter_cons, hpa, hqa]
        omega

/-- C9: the aggregated result includes every diagnostic read back for each
fully processed file regardless of its numeric severity code, while
errorCount counts exactly the severity-1 entries and warningCount exactly
the severity-2 entries; hence any included diagnostic of another severity
makes errorCount + warningCount strictly smaller than the number of
diagnostics. -/
theorem runLspAggregatedDiagnostics_severity_counting
    (files : List (String × FileOutcome)) :
    (∀ f diags, (f, FileOutcome.processed diags) ∈ files →
       ∀ d ∈ diags, ({ file := f, diagnostic := d } : LspDiagnosticWithFile)
         ∈ (runLspAggregatedDiagnostics files).diagnostics)
    ∧ (runLspAggregatedDiagnostics files).errorCount
        = ((runLspAggregatedDiagnostics files).diagnostics.filter
            (fun i => i.diagnostic.severity == 1)).length
    ∧ (runLspAggregatedDiagnostics files).warningCount
        = ((runLspAggregatedDiagnostics files).diagnostics.filter
            (fun i => i.diagnostic.severity == 2)).length
    ∧ ((∃ i ∈ (runLspAggregatedDiagnostics files).diagnostics,
          i.diagnostic.severity ≠ 1 ∧ i.diagnostic.severity ≠ 2) →
       (runLspAggregatedDiagnostics files).errorCount
         + (runLspAggregatedDiagnostics files).warningCount
         < (runLspAggregatedDiagnostics files).diagnostics.length) := by
  refine ⟨?_, rfl, rfl, ?_⟩
  · intro f diags hmem d hd
    exact lspAgg_mem_fold files ([], 0) f diags hmem d hd
  · rintro ⟨i, hi, h1, h2⟩
    exact length_filter_two_lt
      (fun y => y.diagnostic.severity == 1) (fun y => y.diagnostic.severity == 2)
      (fun y hy => by
        have : y.diagnostic.severity = 1 := by simpa using hy
        simp [this])
      _ i hi (by simpa using h1) (by simpa using h2)

/-- Witness for C9: a single processed file carrying one severity-3 (hint)
diagnostic: it is included in the aggregate while both counts stay zero,
strictly below the diagnostics length. -/
theorem runLspAggregatedDiagnostics_severity_counting_witness :
    ({ file := "a.ts", diagnostic := { line := 1, column := 2, message := "m", severity := 3 } }
        : LspDiagnosticWithFile)
      ∈ (runLspAggregatedDiagnostics
          [("a.ts", FileOutcome.processed [{ line := 1, column := 2, message := "m", severity := 3 }])]).diagnostics
    ∧ (runLspAggregatedDiagnostics
          [("a.ts", FileOutcome.processed [{ line := 1, column := 2, message := "m", severity := 3 }])]).errorCount
        + (runLspAggregatedDiagnostics
          [("a.ts", FileOutcome.processed [{ line := 1, column := 2, message := "m", severity := 3 }])]).warningCount
        < (runLspAggregatedDiagnostics
          [("a.ts", FileOutcome.processed [{ line := 1, column := 2, message := "m", severity := 3 }])]).diagnostics.length := by
  constructor
  · exact (runLspAggregatedDiagnostics_severity_counting
      [("a.ts", FileOutcome.processed [{ line := 1, column := 2, message := "m", severity := 3 }])]).1
      "a.ts" [{ line := 1, column := 2, message := "m", severity := 3 }]
      (List.mem_singleton.mpr rfl)
      { line := 1, column := 2, message := "m", severity := 3 }
      (List.mem_singleton.mpr rfl)
  · exact (runLspAggregatedDiagnostics_severity_counting
      [("a.ts", FileOutcome.processed [{ line := 1, column := 2, message := "m", severity := 3 }])]).2.2.2
      ⟨{ file := "a.ts", diagnostic := { line := 1, column := 2, message := "m", severity := 3 } },
        by decide, by decide, by decide⟩

/-- A syntactically valid nonempty command name passes straight to the probe. -/
lemma commandExists_valid (probe : String → Bool) (s : String)
    (hne : ¬(s = "")) (hv : (!validCommandName s) = false) :
    commandExists probe s = probe s := by
  unfold commandExists
  rw [if_neg hne, if_neg (by simp [hv])]

/-- C8: the python runner only runs with at least one of the three project
markers (otherwise it reports the no-project skip); given a marker it runs
mypy when mypy is on the search path, else pylint when pylint is, else
reports the skip naming both missing tools with success true and no
diagnostics. -/
theorem runPythonDiagnostics_tool_selection
    (fs : FsExists) (probe : String → Bool)
    (execMypy execPylint : ExecOutcome) (directory : String) :
    (fs (pathJoin directory "pyproject.toml") = false →
     fs (pathJoin directory "requirements.txt") = false →
     fs (pathJoin directory "setup.py") = false →
      runPythonDiagnostics fs probe execMypy execPylint directory
        = { success := true, diagnostics := [], errorCount := 0, warningCount := 0,
            tool := PyTool.none,
            skipped := some "no Python project files found (pyproject.toml, requirements.txt, or setup.py)" })
    ∧ ((fs (pathJoin directory "pyproject.toml")
         || fs (pathJoin directory "requirements.txt")
         || fs (pathJoin directory "setup.py")) = true →
       probe "mypy" = true →
      runPythonDiagnostics fs probe execMypy execPylint directory = runMypy execMypy)
    ∧ ((fs (pathJoin directory "pyproject.toml")
         || fs (pathJoin directory "requirements.txt")
         || fs (pathJoin directory "setup.py")) = true →
       probe "mypy" = false → probe "pylint" = true →
      runPythonDiagnostics fs probe execMypy execPylint directory = runPylint execPylint)
    ∧ ((fs (pathJoin directory "pyproject.toml")
         || fs (pathJoin directory "requirements.txt")
         || fs (pathJoin directory "setup.py")) = true →
       probe "mypy" = false → probe "pylint" = false →
      runPythonDiagnostics fs probe execMypy execPylint directory
        = { success := true, diagnostics := [], errorCount := 0, warningCount := 0,
            tool := PyTool.none,
            skipped := some "neither mypy nor pylint found in PATH" }) := by
  have hmy : commandExists probe "mypy" = probe "mypy" :=
    commandExists_valid probe "mypy" (by decide) (by decide)
  have hpl : commandExists probe "pylint" = probe "pylint" :=
    commandExists_valid probe "pylint" (by decide) (by decide)
  refine ⟨fun h1 h2 h3 => ?_, fun hm hp => ?_, fun hm hp1 hp2 => ?_, fun hm hp1 hp2 => ?_⟩ <;>
    cases ha : fs (pathJoin directory "pyproject.toml") <;>
    cases hb : fs (pathJoin directory "requirements.txt") <;>
    cases hc : fs (pathJoin directory "setup.py") <;>
    simp_all [runPythonDiagnostics, hmy, hpl]

/-- Witness for C8: with a pyproject.toml marker, a search path holding only
mypy selects the mypy branch; a search path holding neither tool yields the
skip naming both; without any marker the runner skips before probing. -/
theorem runPythonDiagnostics_tool_selection_witness :
    runPythonDiagnostics (fun p => p == "d/pyproject.toml") (fun c => c == "mypy")
        ExecOutcome.ok ExecOutcome.ok "d"
      = runMypy ExecOutcome.ok
    ∧ runPythonDiagnostics (fun p => p == "d/pyproject.toml") (fun _ => false)
        ExecOutcome.ok ExecOutcome.ok "d"
      = { success := true, diagnostics := [], errorCount := 0, warningCount := 0,
          tool := PyTool.none,
          skipped := some "neither mypy nor pylint found in PATH" }
    ∧ runPythonDiagnostics (fun _ => false) (fun c => c == "mypy")
        ExecOutcome.ok ExecOutcome.ok "d"
      = { success := true, diagnostics := [], errorCount := 0, warningCount := 0,
          tool := PyTool.none,
          skipped := some "no Python project files found (pyproject.toml, requirements.txt, or setup.py)" } := by
  refine ⟨?_, ?_, ?_⟩
  · exact (runPythonDiagnostics_tool_selection (fun p => p == "d/pyproject.toml")
      (fun c => c == "mypy") ExecOutcome.ok ExecOutcome.ok "d").2.1 (by decide) (by decide)
  · exact (runPythonDiagnostics_tool_selection (fun p => p == "d/pyproject.toml")
      (fun _ => false) ExecOutcome.ok ExecOutcome.ok "d").2.2.2 (by decide) rfl rfl
  · exact (runPythonDiagnostics_tool_selection (fun _ => false)
      (fun c => c == "mypy") ExecOutcome.ok ExecOutcome.ok "d").1 rfl rfl rfl

/-- The tsc parser sets success as the literal `errorCount === 0`. -/
lemma parseTscOutput_success_iff (output : String) :
    (parseTscOutput output).success = ((parseTscOutput output).errorCount == 0) := rfl

/-- The mypy parser sets success as the literal `errorCount === 0`. -/
lemma parseMypyOutput_success_iff (output : String) :
    (parseMypyOutput output).success = ((parseMypyOutput output).errorCount == 0) := rfl

/-- The pylint parser sets success as the literal `errorCount === 0`. -/
lemma parsePylintOutput_success_iff (output : String) :
    (parsePylintOutput output).success = ((parsePylintOutput output).errorCount == 0) := rfl

/-- When the cargo parser returns at all, success is `errorCount === 0`. -/
lemma parseRustOutput_ok_success_iff (jp : String → Option JsVal) (output : String)
    (r : RustResult) (h : parseRustOutput jp output = .ok r) :
    r.success = (r.errorCount == 0) := by
  unfold parseRustOutput at h
  cases hfold : (jsSplitNewline output).foldlM
      (fun acc line => do
        let d? ← rustLineStep jp line
        match d? with
        | some d => pure (acc ++ [d])
        | none => pure acc)
      ([] : List RustDiagnostic) with
  | error e =>
    rw [hfold] at h
    simp [Bind.bind, Except.bind] at h
  | ok l =>
    rw [hfold] at h
    simp only [Bind.bind, Except.bind, Pure.pure, Except.pure] at h
    cases h
    rfl

/-- The tsc runner preserves success iff errorCount is zero in every branch. -/
lemma runTscDiagnostics_success_iff (fs : FsExists) (exec : ExecOutcome) (directory : String) :
    (runTscDiagnostics fs exec directory).success
      = ((runTscDiagnostics fs exec directory).errorCount == 0) := by
  unfold runTscDiagnostics
  split
  · rfl
  · cases exec with
    | ok => rfl
    | enoent => rfl
    | fail stdout stderr =>
      simp only []
      split
      · rfl
      · exact parseTscOutput_success_iff _

/-- The mypy branch preserves success iff errorCount is zero. -/
lemma runMypy_success_iff (exec : ExecOutcome) :
    (runMypy exec).success = ((runMypy exec).errorCount == 0) := by
  cases exec with
  | ok => rfl
  | enoent => rfl
  | fail stdout stderr =>
    unfold runMypy
    simp only []
    split
    · rfl
    · exact parseMypyOutput_success_iff _

/-- The pylint branch preserves success iff errorCount is zero. -/
lemma runPylint_success_iff (exec : ExecOutcome) :
    (runPylint exec).success = ((runPylint exec).errorCount == 0) := by
  cases exec with
  | ok => rfl
  | enoent => rfl
  | fail stdout stderr =>
    unfold runPylint
    simp only []
    split
    · rfl
    · exact parsePylintOutput_success_iff _

/-- The python runner preserves success iff errorCount is zero in every branch. -/
lemma runPythonDiagnostics_success_iff (fs : FsExists) (probe : String → Bool)
    (execMypy execPylint : ExecOutcome) (directory : String) :
    (runPythonDiagnostics fs probe execMypy execPylint directory).success
      = ((runPythonDiagnostics fs probe execMypy execPylint directory).errorCount == 0) := by
  cases hA : (!fs (pathJoin directory "pyproject.toml")
      && !fs (pathJoin directory "requirements.txt")
      && !fs (pathJoin directory "setup.py")) with
  | true => simp [runPythonDiagnostics, hA]
  | false =>
    cases hB : commandExists probe "mypy" with
    | true => simp [runPythonDiagnostics, hA, hB, runMypy_success_iff]
    | false =>
      cases hC : commandExists probe "pylint" with
      | true => simp [runPythonDiagnostics, hA, hB, hC, runPylint_success_iff]
      | false => simp [runPythonDiagnostics, hA, hB, hC]

/-- When the cargo runner returns at all, success is `errorCount === 0` in
every branch. -/
lemma runRustDiagnostics_ok_success_iff (jp : String → Option JsVal) (fs : FsExists)
    (exec : ExecOutcome) (directory : String) (r : RustResult)
    (h : runRustDiagnostics jp fs exec directory = .ok r) :
    r.success = (r.errorCount == 0) := by
  unfold runRustDiagnostics at h
  split at h
  · cases h
    rfl
  · cases exec with
    | ok =>
      cases h
      rfl
    | enoent =>
      cases h
      rfl
    | fail stdout stderr => exact parseRustOutput_ok_success_iff jp _ r h

/-- The go parser and runner never report errors: errorCount is the
constant 0, and success tracks emptiness of the diagnostics list instead. -/
lemma runGoDiagnostics_shape (fs : FsExists) (exec : ExecOutcome) (directory : String) :
    (runGoDiagnostics fs exec directory).errorCount = 0
    ∧ (runGoDiagnostics fs exec directory).success
        = ((runGoDiagnostics fs exec directory).diagnostics.length == 0) := by
  unfold runGoDiagnostics
  split
  · exact ⟨rfl, rfl⟩
  · cases exec with
    | ok => exact ⟨rfl, rfl⟩
    | enoent => exact ⟨rfl, rfl⟩
    | fail stdout stderr => exact ⟨rfl, rfl⟩

/-- Counterexample to C1: a one-line go vet output yields a result whose
diagnostics are all warning-severity and whose errorCount is 0, yet whose
success is false — so success is not `errorCount == 0` for the go parser,
and an all-warning go result does not succeed. -/
theorem parseGoOutput_allwarning_failure_counterexample :
    (parseGoOutput "main.go:10:5: unreachable code").errorCount = 0
    ∧ (parseGoOutput "main.go:10:5: unreachable code").success = false
    ∧ (parseGoOutput "main.go:10:5: unreachable code").diagnostics
        = [{ file := "main.go", line := 10, column := 5,
             message := "unreachable code", severity := Sev.warning }] := by
  exact ⟨rfl, by decide, by decide⟩

/-- C1 amended: success equals `errorCount == 0` for the tsc, mypy, pylint
and cargo parsers and for the tsc, python and cargo runners (for cargo,
whenever a result is returned); the go parser and runner instead keep
errorCount at the constant 0 and set success to `diagnostics.length == 0`,
so a nonempty all-warning go result reports failure. -/
theorem success_errorCount_relation_amended :
    (∀ output, (parseTscOutput output).success = ((parseTscOutput output).errorCount == 0))
    ∧ (∀ output, (parseMypyOutput output).success = ((parseMypyOutput output).errorCount == 0))
    ∧ (∀ output, (parsePylintOutput output).success = ((parsePylintOutput output).errorCount == 0))
    ∧ (∀ jp output r, parseRustOutput jp output = .ok r → r.success = (r.errorCount == 0))
    ∧ (∀ fs exec directory, (runTscDiagnostics fs exec directory).success
        = ((runTscDiagnostics fs exec directory).errorCount == 0))
    ∧ (∀ fs probe execMypy execPylint directory,
        (runPythonDiagnostics fs probe execMypy execPylint directory).success
          = ((runPythonDiagnostics fs probe execMypy execPylint directory).errorCount == 0))
    ∧ (∀ jp fs exec directory r, runRustDiagnostics jp fs exec directory = .ok r →
        r.success = (r.errorCount == 0))
    ∧ (∀ output, (parseGoOutput output).errorCount = 0
        ∧ (parseGoOutput output).success = ((parseGoOutput output).diagnostics.length == 0))
    ∧ (∀ fs exec directory, (runGoDiagnostics fs exec directory).errorCount = 0
        ∧ (runGoDiagnostics fs exec directory).success
            = ((runGoDiagnostics fs exec directory).diagnostics.length == 0)) :=
  ⟨parseTscOutput_success_iff, parseMypyOutput_success_iff, parsePylintOutput_success_iff,
   parseRustOutput_ok_success_iff, runTscDiagnostics_success_iff,
   runPythonDiagnostics_success_iff, runRustDiagnostics_ok_success_iff,
   fun _ => ⟨rfl, rfl⟩, runGoDiagnostics_shape⟩

/-- Witness for the amended C1: concrete cargo parser and runner results
with their hypotheses discharged by evaluation. -/
theorem success_errorCount_relation_amended_witness :
    (({ success := true, diagnostics := [], errorCount := 0, warningCount := 0 } :
        RustResult).success
      = (({ success := true, diagnostics := [], errorCount := 0, warningCount := 0 } :
        RustResult).errorCount == 0))
    ∧ (({ success := true, diagnostics := [], errorCount := 0, warningCount := 0,
            skipped := some "no Cargo.toml found in directory" } : RustResult).success
      = (({ success := true, diagnostics := [], errorCount := 0, warningCount := 0,
              skipped := some "no Cargo.toml found in directory" } : RustResult).errorCount == 0)) :=
  ⟨success_errorCount_relation_amended.2.2.2.1 (fun _ => none) "x"
      { success := true, diagnostics := [], errorCount := 0, warningCount := 0 } (by rfl),
   success_errorCount_relation_amended.2.2.2.2.2.2.1 (fun _ => none) (fun _ => false)
      ExecOutcome.ok "d"
      { success := true, diagnostics := [], errorCount := 0, warningCount := 0,
        skipped := some "no Cargo.toml found in directory" } (by rfl)⟩

/-- Counterexample to C2: with the project marker present, a non-zero exit
with empty stdout and stderr makes the go and rust runners report success
with no diagnostics at all — not a synthesized error-severity crash
diagnostic at file '.', line 0, column 0. -/
theorem runner_silent_crash_counterexample :
    runGoDiagnostics (fun p => p == "d/go.mod") (ExecOutcome.fail "" "") "d"
      = { success := true, diagnostics := [], errorCount := 0, warningCount := 0 }
    ∧ runRustDiagnostics (fun _ => none) (fun p => p == "d/Cargo.toml")
        (ExecOutcome.fail "" "") "d"
      = .ok { success := true, diagnostics := [], errorCount := 0, warningCount := 0 } := by
  exact ⟨by decide, by rfl⟩

/-- C2 amended: only the tsc, mypy and pylint invocations synthesize the
silent-crash diagnostic (error severity, file '.', line 0, column 0, fixed
codes tsc-crash / mypy-crash / pylint-crash, message naming the tool,
success false); the go and rust runners instead hand the empty output to
their parsers and report success with empty diagnostics. -/
theorem silent_crash_handling_amended :
    (∀ fs directory, fs (pathJoin directory "tsconfig.json") = true →
      runTscDiagnostics fs (ExecOutcome.fail "" "") directory = tscCrashResult)
    ∧ (∀ fs probe execPylint directory,
        (fs (pathJoin directory "pyproject.toml")
          || fs (pathJoin directory "requirements.txt")
          || fs (pathJoin directory "setup.py")) = true →
        probe "mypy" = true →
      runPythonDiagnostics fs probe (ExecOutcome.fail "" "") execPylint directory
        = mypyCrashResult)
    ∧ (∀ fs probe execMypy directory,
        (fs (pathJoin directory "pyproject.toml")
          || fs (pathJoin directory "requirements.txt")
          || fs (pathJoin directory "setup.py")) = true →
        probe "mypy" = false → probe "pylint" = true →
      runPythonDiagnostics fs probe execMypy (ExecOutcome.fail "" "") directory
        = pylintCrashResult)
    ∧ (∀ fs directory, fs (pathJoin directory "go.mod") = true →
      runGoDiagnostics fs (ExecOutcome.fail "" "") directory
        = { success := true, diagnostics := [], errorCount := 0, warningCount := 0 })
    ∧ (∀ jp fs directory, fs (pathJoin directory "Cargo.toml") = true →
      runRustDiagnostics jp fs (ExecOutcome.fail "" "") directory
        = .ok { success := true, diagnostics := [], errorCount := 0, warningCount := 0 }) := by
  have hmy : ∀ probe : String → Bool, commandExists probe "mypy" = probe "mypy" :=
    fun probe => commandExists_valid probe "mypy" (by decide) (by decide)
  have hpl : ∀ probe : String → Bool, commandExists probe "pylint" = probe "pylint" :=
    fun probe => commandExists_valid probe "pylint" (by decide) (by decide)
  refine ⟨fun fs directory h => ?_, fun fs probe execPylint directory hm hp => ?_,
    fun fs probe execMypy directory hm hp1 hp2 => ?_, fun fs directory h => ?_,
    fun jp fs directory h => ?_⟩
  · have hout : jsTrim (jsOrStr "" (jsOrStr "" "")) = "" := rfl
    simp [runTscDiagnostics, h, hout]
  · cases ha : fs (pathJoin directory "pyproject.toml") <;>
    cases hb : fs (pathJoin directory "requirements.txt") <;>
    cases hc : fs (pathJoin directory "setup.py") <;>
    simp_all [runPythonDiagnostics, hmy probe] <;>
    rfl
  · cases ha : fs (pathJoin directory "pyproject.toml") <;>
    cases hb : fs (pathJoin directory "requirements.txt") <;>
    cases hc : fs (pathJoin directory "setup.py") <;>
    simp_all [runPythonDiagnostics, hmy probe, hpl probe] <;>
    rfl
  · simp [runGoDiagnostics, h]
    rfl
  · simp [runRustDiagnostics, h]
    rfl

/-- Witness for the amended C2: concrete filesystems and probes exercising
all five branches. -/
theorem silent_crash_handling_amended_witness :
    runTscDiagnostics (fun p => p == "d/tsconfig.json") (ExecOutcome.fail "" "") "d"
      = tscCrashResult
    ∧ runPythonDiagnostics (fun p => p == "d/pyproject.toml") (fun c => c == "mypy")
        (ExecOutcome.fail "" "") ExecOutcome.ok "d" = mypyCrashResult
    ∧ runPythonDiagnostics (fun p => p == "d/pyproject.toml") (fun c => c == "pylint")
        ExecOutcome.ok (ExecOutcome.fail "" "") "d" = pylintCrashResult
    ∧ runGoDiagnostics (fun p => p == "e/go.mod") (ExecOutcome.fail "" "") "e"
      = { success := true, diagnostics := [], errorCount := 0, warningCount := 0 }
    ∧ runRustDiagnostics (fun _ => none) (fun p => p == "e/Cargo.toml")
        (ExecOutcome.fail "" "") "e"
      = .ok { success := true, diagnostics := [], errorCount := 0, warningCount := 0 } := by
  refine ⟨?_, ?_, ?_, ?_, ?_⟩
  · exact silent_crash_handling_amended.1 (fun p => p == "d/tsconfig.json") "d" (by decide)
  · exact silent_crash_handling_amended.2.1 (fun p => p == "d/pyproject.toml")
      (fun c => c == "mypy") ExecOutcome.ok "d" (by decide) (by decide)
  · exact silent_crash_handling_amended.2.2.1 (fun p => p == "d/pyproject.toml")
      (fun c => c == "pylint") ExecOutcome.ok "d" (by decide) (by decide) (by decide)
  · exact silent_crash_handling_amended.2.2.2.1 (fun p => p == "e/go.mod") "e" (by decide)
  · exact silent_crash_handling_amended.2.2.2.2 (fun _ => none) (fun p => p == "e/Cargo.toml")
      "e" (by decide)

/-- Every diagnostic the go parser produces carries warning severity. -/
lemma parseGoOutput_all_warning (output : String) :
    ∀ d ∈ (parseGoOutput output).diagnostics, d.severity = Sev.warning := by
  intro d hd
  simp only [parseGoOutput, List.mem_filterMap] at hd
  obtain ⟨caps, _, hsome⟩ := hd
  simp only [Bind.bind, Option.bind_eq_some, Pure.pure, Option.some.injEq] at hsome
  obtain ⟨f1, _, f2, _, f3, _, f4, _, heq⟩ := hsome
  rw [← heq]

/-- The counts of the tsc parser partition its diagnostics. -/
lemma parseTscOutput_counts (output : String) :
    (parseTscOutput output).errorCount + (parseTscOutput output).warningCount
      = (parseTscOutput output).diagnostics.length :=
  sev_filter_partition (fun d : TscDiagnostic => d.severity)
    (parseTscOutput output).diagnostics

/-- The counts of the mypy parser partition its diagnostics. -/
lemma parseMypyOutput_counts (output : String) :
    (parseMypyOutput output).errorCount + (parseMypyOutput output).warningCount
      = (parseMypyOutput output).diagnostics.length :=
  sev_filter_partition (fun d : PythonDiagnostic => d.severity)
    (parseMypyOutput output).diagnostics

/-- The counts of the pylint parser partition its diagnostics. -/
lemma parsePylintOutput_counts (output : String) :
    (parsePylintOutput output).errorCount + (parsePylintOutput output).warningCount
      = (parsePylintOutput output).diagnostics.length :=
  sev_filter_partition (fun d : PythonDiagnostic => d.severity)
    (parsePylintOutput output).diagnostics

/-- Counterexample to C3: the line `null` is valid JSON, decoding to the
JavaScript value `null`; the unguarded property read `msg.reason` then
throws a TypeError out of `parseRustOutput`, so the parser does not return
a result at all for this input (the oracle here maps exactly the input
`JSON.parse` receives, the trimmed line `null`, to its JSON value). -/
theorem parseRustOutput_null_line_counterexample :
    parseRustOutput (fun s => if s = "null" then some JsVal.null else none) "null"
      = .error () := by
  rfl

/-- C3 amended: for every input, the tsc, go, mypy and pylint parsers
return a result whose errorCount and warningCount are the severity-wise
partition sizes of its diagnostics and sum to its length; the cargo parser
satisfies the same invariant whenever it returns a result, but can instead
propagate a TypeError on pathological JSON lines (such as a line decoding
to `null`). -/
theorem parser_counts_partition_amended :
    (∀ output, (parseTscOutput output).errorCount + (parseTscOutput output).warningCount
        = (parseTscOutput output).diagnostics.length
      ∧ (parseTscOutput output).errorCount
        = ((parseTscOutput output).diagnostics.filter (fun d => d.severity == Sev.error)).length
      ∧ (parseTscOutput output).warningCount
        = ((parseTscOutput output).diagnostics.filter (fun d => d.severity == Sev.warning)).length)
    ∧ (∀ output, (parseGoOutput output).errorCount + (parseGoOutput output).warningCount
        = (parseGoOutput output).diagnostics.length
      ∧ (parseGoOutput output).errorCount
        = ((parseGoOutput output).diagnostics.filter (fun d => d.severity == Sev.error)).length
      ∧ (parseGoOutput output).warningCount
        = ((parseGoOutput output).diagnostics.filter (fun d => d.severity == Sev.warning)).length)
    ∧ (∀ output, (parseMypyOutput output).errorCount + (parseMypyOutput output).warningCount
        = (parseMypyOutput output).diagnostics.length
      ∧ (parseMypyOutput output).errorCount
        = ((parseMypyOutput output).diagnostics.filter (fun d => d.severity == Sev.error)).length
      ∧ (parseMypyOutput output).warningCount
        = ((parseMypyOutput output).diagnostics.filter (fun d => d.severity == Sev.warning)).length)
    ∧ (∀ output, (parsePylintOutput output).errorCount + (parsePylintOutput output).warningCount
        = (parsePylintOutput output).diagnostics.length
      ∧ (parsePylintOutput output).errorCount
        = ((parsePylintOutput output).diagnostics.filter (fun d => d.severity == Sev.error)).length
      ∧ (parsePylintOutput output).warningCount
        = ((parsePylintOutput output).diagnostics.filter (fun d => d.severity == Sev.warning)).length)
    ∧ (∀ jp output r, parseRustOutput jp output = .ok r →
        r.errorCount + r.warningCount = r.diagnostics.length
      ∧ r.errorCount = (r.diagnostics.filter (fun d => d.severity == Sev.error)).length
      ∧ r.warningCount = (r.diagnostics.filter (fun d => d.severity == Sev.warning)).length) := by
  refine ⟨fun output => ⟨parseTscOutput_counts output, rfl, rfl⟩,
    fun output => ?_,
    fun output => ⟨parseMypyOutput_counts output, rfl, rfl⟩,
    fun output => ⟨parsePylintOutput_counts output, rfl, rfl⟩,
    fun jp output r h => ?_⟩
  · have hall := parseGoOutput_all_warning output
    have herr : (parseGoOutput output).diagnostics.filter
        (fun d => d.severity == Sev.error) = [] :=
      List.filter_eq_nil_iff.mpr (fun d hd => by rw [hall d hd]; simp)
    have hwarn : (parseGoOutput output).diagnostics.filter
        (fun d => d.severity == Sev.warning) = (parseGoOutput output).diagnostics :=
      List.filter_eq_self.mpr (fun d hd => by rw [hall d hd]; simp)
    refine ⟨by simp [parseGoOutput], ?_, ?_⟩
    · rw [herr]
      rfl
    · rw [hwarn]
      rfl
  · unfold parseRustOutput at h
    cases hfold : (jsSplitNewline output).foldlM
        (fun acc line => do
          let d? ← rustLineStep jp line
          match d? with
          | some d => pure (acc ++ [d])
          | none => pure acc)
        ([] : List RustDiagnostic) with
    | error e =>
      rw [hfold] at h
      simp [Bind.bind, Except.bind] at h
    | ok l =>
      rw [hfold] at h
      simp only [Bind.bind, Except.bind, Pure.pure, Except.pure] at h
      cases h
      exact ⟨sev_filter_partition (fun d : RustDiagnostic => d.severity) l, rfl, rfl⟩

/-- Witness for the amended C3: the invariant read off a concrete cargo
parser run, with the hypothesis discharged by evaluation. -/
theorem parser_counts_partition_amended_witness :
    (({ success := true, diagnostics := [], errorCount := 0, warningCount := 0 } :
        RustResult).errorCount
      + ({ success := true, diagnostics := [], errorCount := 0, warningCount := 0 } :
        RustResult).warningCount
      = ({ success := true, diagnostics := [], errorCount := 0, warningCount := 0 } :
        RustResult).diagnostics.length) :=
  (parser_counts_partition_amended.2.2.2.2 (fun _ => none) "y"
    { success := true, diagnostics := [], errorCount := 0, warningCount := 0 } (by rfl)).1

/-- A property read on a non-nullish receiver returns its field description. -/
lemma jsAccess_not_nullish (v : JsVal) (k : String) (h : jsNullish v = false) :
    jsAccess v k = .ok (jsFieldD v k) := by
  cases v <;> simp_all [jsAccess, jsFieldD, jsNullish]

/-- A property read on a nullish receiver throws. -/
lemma jsAccess_nullish (v : JsVal) (k : String) (h : jsNullish v = true) :
    jsAccess v k = .error () := by
  cases v <;> simp_all [jsAccess, jsNullish]

/-- Truthy values are not nullish. -/
lemma jsTruthy_not_nullish (v : JsVal) (h : jsTruthy v = true) :
    jsNullish v = false := by
  cases v <;> simp_all [jsTruthy, jsNullish]

/-- A span selected by the find callback is non-nullish and has a truthy
`is_primary` property. -/
lemma findPrim_ok_some (xs : List JsVal) (span : JsVal)
    (h : findPrim xs = .ok (some span)) :
    jsNullish span = false ∧ jsTruthy (jsFieldD span "is_primary") = true := by
  induction xs with
  | nil => simp [findPrim, Pure.pure, Except.pure] at h
  | cons s rest ih =>
    unfold findPrim at h
    cases hN : jsNullish s
    · rw [jsAccess_not_nullish s "is_primary" hN] at h
      simp only [Bind.bind, Except.bind] at h
      cases hT : jsTruthy (jsFieldD s "is_primary")
      · simp only [hT, if_false, Bool.false_eq_true] at h
        exact ih h
      · simp only [hT, if_true] at h
        simp only [Pure.pure, Except.pure, Except.ok.injEq, Option.some.injEq] at h
        subst h
        exact ⟨hN, hT⟩
    · rw [jsAccess_nullish s "is_primary" hN] at h
      simp [Bind.bind, Except.bind] at h

/-- Lifting `findPrim_ok_some` through the optional chaining wrapper. -/
lemma spansFindPrimary_ok_some (v : JsVal) (span : JsVal)
    (h : spansFindPrimary v = .ok (some span)) :
    jsNullish span = false ∧ jsTruthy (jsFieldD span "is_primary") = true := by
  cases v with
  | arr elems => exact findPrim_ok_some elems span h
  | null => simp [spansFindPrimary] at h
  | undefined => simp [spansFindPrimary] at h
  | bool b => simp [spansFindPrimary] at h
  | num n => simp [spansFindPrimary] at h
  | str s => simp [spansFindPrimary] at h
  | obj fields => simp [spansFindPrimary] at h

/-- Reading a successful property access off the total field description. -/
lemma jsAccess_ok_field (v : JsVal) (k : String) (x : JsVal)
    (h : jsAccess v k = .ok x) : jsFieldD v k = x := by
  cases v <;> simp_all [jsAccess, jsFieldD]

/-- A line the JSON oracle cannot decode contributes no diagnostic. -/
lemma rustLineStep_none_of_undecodable (jp : String → Option JsVal) (line : String)
    (h : jp (jsTrim line) = none) : rustLineStep jp line = .ok none := by
  unfold rustLineStep
  by_cases ht : jsTrim line = ""
  · simp [ht]
  · simp [ht, h]

/-- A decoded value whose `reason` is not `compiler-message` contributes no
diagnostic. -/
lemma rustMsg_none_of_reason (msg : JsVal) (h1 : jsNullish msg = false)
    (h2 : isStrEq (jsFieldD msg "reason") "compiler-message" = false) :
    rustMessageToDiagnostic msg = .ok none := by
  unfold rustMessageToDiagnostic
  rw [jsAccess_not_nullish msg "reason" h1]
  simp [h2]

/-- A compiler message whose `level` is neither `error` nor `warning`
(for instance `note`) contributes no diagnostic. -/
lemma rustMsg_none_of_level (msg : JsVal) (h1 : jsNullish msg = false)
    (he : isStrEq (jsFieldD (jsFieldD msg "message") "level") "error" = false)
    (hw : isStrEq (jsFieldD (jsFieldD msg "message") "level") "warning" = false) :
    rustMessageToDiagnostic msg = .ok none := by
  cases hr : isStrEq (jsFieldD msg "reason") "compiler-message"
  · exact rustMsg_none_of_reason msg h1 hr
  · unfold rustMessageToDiagnostic
    rw [jsAccess_not_nullish msg "reason" h1]
    cases ht : jsTruthy (jsFieldD msg "message")
    · simp [hr, jsAccess_not_nullish msg "message" h1, ht]
    · have hnn := jsTruthy_not_nullish _ ht
      simp [hr, jsAccess_not_nullish msg "message" h1, ht,
        jsAccess_not_nullish _ "level" hnn, he, hw]

/-- A compiler message with no primary span contributes no diagnostic. -/
lemma rustMsg_none_of_no_primary (msg : JsVal) (h1 : jsNullish msg = false)
    (hfind : spansFindPrimary (jsFieldD (jsFieldD msg "message") "spans") = .ok none) :
    rustMessageToDiagnostic msg = .ok none := by
  cases hr : isStrEq (jsFieldD msg "reason") "compiler-message"
  · exact rustMsg_none_of_reason msg h1 hr
  · cases ht : jsTruthy (jsFieldD msg "message")
    · unfold rustMessageToDiagnostic
      rw [jsAccess_not_nullish msg "reason" h1]
      simp [hr, jsAccess_not_nullish msg "message" h1, ht]
    · have hnn := jsTruthy_not_nullish _ ht
      by_cases hlev : isStrEq (jsFieldD (jsFieldD msg "message") "level") "error" = false
          ∧ isStrEq (jsFieldD (jsFieldD msg "message") "level") "warning" = false
      · exact rustMsg_none_of_level msg h1 hlev.1 hlev.2
      · have hcond : (!(isStrEq (jsFieldD (jsFieldD msg "message") "level") "error")
            && !(isStrEq (jsFieldD (jsFieldD msg "message") "level") "warning")) = false := by
          cases he : isStrEq (jsFieldD (jsFieldD msg "message") "level") "error" <;>
          cases hw : isStrEq (jsFieldD (jsFieldD msg "message") "level") "warning" <;>
          simp_all
        unfold rustMessageToDiagnostic
        rw [jsAccess_not_nullish msg "reason" h1]
        simp [hr, jsAccess_not_nullish msg "message" h1, ht,
          jsAccess_not_nullish _ "level" hnn, jsAccess_not_nullish _ "spans" hnn,
          hcond, hfind]

/-- A produced diagnostic takes its file, line and column exactly from the
span the find selected (the first, and per cargo the only, primary span). -/
lemma rustMsg_some_primary (msg : JsVal) (d : RustDiagnostic)
    (h : rustMessageToDiagnostic msg = .ok (some d)) :
    ∃ span, spansFindPrimary (jsFieldD (jsFieldD msg "message") "spans")
        = .ok (some span)
      ∧ d.file = jsFieldD span "file_name"
      ∧ d.line = jsFieldD span "line_start"
      ∧ d.column = jsFieldD span "column_start" := by
  unfold rustMessageToDiagnostic at h
  cases hq1 : jsAccess msg "reason" with
  | error e => rw [hq1] at h; simp at h
  | ok reason =>
  rw [hq1] at h
  dsimp only at h
  cases hr : isStrEq reason "compiler-message"
  · simp [hr] at h
  · simp only [hr, Bool.not_true, Bool.false_eq_true, if_false] at h
    cases hq2 : jsAccess msg "message" with
    | error e => rw [hq2] at h; simp at h
    | ok innerMessage =>
    rw [hq2] at h
    dsimp only at h
    cases ht : jsTruthy innerMessage
    · simp [ht] at h
    · simp only [ht, Bool.not_true, Bool.false_eq_true, if_false] at h
      cases hq3 : jsAccess innerMessage "level" with
      | error e => rw [hq3] at h; simp at h
      | ok level =>
      rw [hq3] at h
      dsimp only at h
      cases hcond : (!(isStrEq level "error") && !(isStrEq level "warning"))
      · simp only [hcond, Bool.false_eq_true, if_false] at h
        cases hq4 : jsAccess innerMessage "spans" with
        | error e => rw [hq4] at h; simp at h
        | ok spansV =>
        rw [hq4] at h
        dsimp only at h
        cases hq5 : spansFindPrimary spansV with
        | error e => rw [hq5] at h; simp at h
        | ok primary? =>
        rw [hq5] at h
        cases primary? with
        | none => simp at h
        | some primarySpan =>
        dsimp only at h
        cases hq6 : jsAccess innerMessage "code" with
        | error e => rw [hq6] at h; simp at h
        | ok codeV =>
        rw [hq6] at h
        dsimp only at h
        cases hq7 : (if jsNullish codeV then Except.ok JsVal.undefined
            else jsAccess codeV "code") with
        | error e => rw [hq7] at h; simp at h
        | ok codeCodeV =>
        rw [hq7] at h
        dsimp only at h
        cases hq8 : jsAccess innerMessage "message" with
        | error e => rw [hq8] at h; simp at h
        | ok innerMsgV =>
        rw [hq8] at h
        dsimp only at h
        cases hq9 : jsAccess primarySpan "file_name" with
        | error e => rw [hq9] at h; simp at h
        | ok fileV =>
        rw [hq9] at h
        dsimp only at h
        cases hq10 : jsAccess primarySpan "line_start" with
        | error e => rw [hq10] at h; simp at h
        | ok lineV =>
        rw [hq10] at h
        dsimp only at h
        cases hq11 : jsAccess primarySpan "column_start" with
        | error e => rw [hq11] at h; simp at h
        | ok colV =>
        rw [hq11] at h
        dsimp only at h
        cases h
        refine ⟨primarySpan, ?_, ?_, ?_, ?_⟩
        · rw [jsAccess_ok_field msg "message" innerMessage hq2,
            jsAccess_ok_field innerMessage "spans" spansV hq4]
          exact hq5
        · exact (jsAccess_ok_field primarySpan "file_name" fileV hq9).symm
        · exact (jsAccess_ok_field primarySpan "line_start" lineV hq10).symm
        · exact (jsAccess_ok_field primarySpan "column_start" colV hq11).symm
      · simp [hcond] at h

/-- `Array.prototype.find` returns the first element with a truthy
`is_primary`, skipping every preceding non-primary span. -/
lemma findPrim_first_primary (pre : List JsVal) (span : JsVal) (post : List JsVal)
    (hpre : ∀ s ∈ pre, jsNullish s = false ∧ jsTruthy (jsFieldD s "is_primary") = false)
    (hN : jsNullish span = false) (hT : jsTruthy (jsFieldD span "is_primary") = true) :
    findPrim (pre ++ span :: post) = .ok (some span) := by
  induction pre with
  | nil =>
    show findPrim (span :: post) = .ok (some span)
    unfold findPrim
    rw [jsAccess_not_nullish span "is_primary" hN]
    simp [Bind.bind, Except.bind, hT, Pure.pure, Except.pure]
  | cons s rest ih =>
    obtain ⟨hsN, hsT⟩ := hpre s (List.mem_cons_self s rest)
    show findPrim (s :: (rest ++ span :: post)) = .ok (some span)
    unfold findPrim
    rw [jsAccess_not_nullish s "is_primary" hsN]
    simp only [Bind.bind, Except.bind, hsT, Bool.false_eq_true, if_false]
    exact ih (fun x hx => hpre x (List.mem_cons_of_mem s hx))

/-- C7: in `parseRustOutput`, (a) an undecodable line contributes no
diagnostic, (b) a decoded value whose reason is not `compiler-message`
contributes no diagnostic, (c) a compiler message whose level is neither
`error` nor `warning` (such as `note`) contributes no diagnostic, (d) a
compiler message whose span search yields no primary span contributes no
diagnostic, (e) a retained diagnostic draws file, line and column exactly
from the span the find selected, and (f) the find selects the first span
with a truthy `is_primary`, skipping every non-primary span before it. -/
theorem parseRustOutput_primary_span_selection :
    (∀ jp line, jp (jsTrim line) = none → rustLineStep jp line = .ok none)
    ∧ (∀ msg, jsNullish msg = false →
        isStrEq (jsFieldD msg "reason") "compiler-message" = false →
        rustMessageToDiagnostic msg = .ok none)
    ∧ (∀ msg, jsNullish msg = false →
        isStrEq (jsFieldD (jsFieldD msg "message") "level") "error" = false →
        isStrEq (jsFieldD (jsFieldD msg "message") "level") "warning" = false →
        rustMessageToDiagnostic msg = .ok none)
    ∧ (∀ msg, jsNullish msg = false →
        spansFindPrimary (jsFieldD (jsFieldD msg "message") "spans") = .ok none →
        rustMessageToDiagnostic msg = .ok none)
    ∧ (∀ msg d, rustMessageToDiagnostic msg = .ok (some d) →
        ∃ span, spansFindPrimary (jsFieldD (jsFieldD msg "message") "spans")
            = .ok (some span)
          ∧ d.file = jsFieldD span "file_name"
          ∧ d.line = jsFieldD span "line_start"
          ∧ d.column = jsFieldD span "column_start")
    ∧ (∀ pre span post,
        (∀ s ∈ pre, jsNullish s = false ∧ jsTruthy (jsFieldD s "is_primary") = false) →
        jsNullish span = false → jsTruthy (jsFieldD span "is_primary") = true →
        findPrim (pre ++ span :: post) = .ok (some span)) :=
  ⟨rustLineStep_none_of_undecodable, rustMsg_none_of_reason, rustMsg_none_of_level,
   rustMsg_none_of_no_primary, rustMsg_some_primary, findPrim_first_primary⟩

/-- A non-primary context span of the spec's two-span example. -/
def rustSpanNonPrimary : JsVal :=
  JsVal.obj [("file_name", JsVal.str "src/other.rs"), ("line_start", JsVal.num 1),
    ("column_start", JsVal.num 1), ("is_primary", JsVal.bool false)]

/-- The primary span (listed second) of the spec's two-span example. -/
def rustSpanPrimary : JsVal :=
  JsVal.obj [("file_name", JsVal.str "src/main.rs"), ("line_start", JsVal.num 10),
    ("column_start", JsVal.num 5), ("is_primary", JsVal.bool true)]

/-- A compiler-message with two spans where only the second is primary. -/
def rustTwoSpanMessage : JsVal :=
  JsVal.obj [("reason", JsVal.str "compiler-message"),
    ("message", JsVal.obj [("message", JsVal.str "mismatched types"),
      ("code", JsVal.obj [("code", JsVal.str "E0308")]),
      ("level", JsVal.str "error"),
      ("spans", JsVal.arr [rustSpanNonPrimary, rustSpanPrimary])])]

/-- Witness for C7: on the two-span message the find skips the first
(non-primary) span and selects the second; the produced diagnostic is
anchored at the second span's location; a compiler-artifact value and a
note-level message produce no diagnostic. -/
theorem parseRustOutput_primary_span_selection_witness :
    findPrim [rustSpanNonPrimary, rustSpanPrimary] = .ok (some rustSpanPrimary)
    ∧ rustMessageToDiagnostic rustTwoSpanMessage
        = .ok (some { severity := Sev.error, code := JsVal.str "E0308",
                      message := JsVal.str "mismatched types",
                      file := JsVal.str "src/main.rs",
                      line := JsVal.num 10, column := JsVal.num 5 })
    ∧ rustMessageToDiagnostic (JsVal.obj [("reason", JsVal.str "compiler-artifact")])
        = .ok none
    ∧ rustMessageToDiagnostic
        (JsVal.obj [("reason", JsVal.str "compiler-message"),
          ("message", JsVal.obj [("message", JsVal.str "some note"),
            ("level", JsVal.str "note"), ("spans", JsVal.arr [])])])
        = .ok none := by
  refine ⟨?_, by rfl, ?_, ?_⟩
  · exact parseRustOutput_primary_span_selection.2.2.2.2.2
      [rustSpanNonPrimary] rustSpanPrimary []
      (by
        intro s hs
        simp only [List.mem_singleton] at hs
        subst hs
        exact ⟨rfl, rfl⟩)
      rfl rfl
  · exact parseRustOutput_primary_span_selection.2.1
      (JsVal.obj [("reason", JsVal.str "compiler-artifact")]) rfl rfl
  · exact parseRustOutput_primary_span_selection.2.2.1
      (JsVal.obj [("reason", JsVal.str "compiler-message"),
        ("message", JsVal.obj [("message", JsVal.str "some note"),
          ("level", JsVal.str "note"), ("spans", JsVal.arr [])])])
      rfl rfl rfl
